import Mathlib

/-!
Verification of the SysSpector system-information collector.

This file gives a shallow embedding, in Lean 4, of the parts of the Go
source that the specification's claims are about, together with theorems
settling those claims.  External effects (process execution, WMI queries,
HTTP requests, library calls) are modelled as explicit inputs: a command
that may fail becomes an `Option String` (`none` = command not found or
non-zero exit, `some out` = its captured standard output), and similarly
for queries and HTTP responses.  Go machine integers are modelled as
`Int`/`Nat` (no claim depends on 64-bit overflow) and Go `float64` values
as `ℚ` (every numeric literal and arithmetic step appearing in the claims
is exactly representable in `float64`, so exact rational arithmetic agrees
with the source's floating-point arithmetic on everything proved here).

Go string primitives (`strings.Split`, `strings.Contains`,
`strings.Fields`, `strconv.Atoi`, ...) are re-implemented below by
structural recursion on character lists so that every definition reduces
inside the kernel; each helper's doc comment names the Go function it
models.
-/

namespace SysSpector

/-- If `sep` is a prefix of `ys`, return the remainder of `ys`, else `none`
(helper for the splitter below). -/
def stripPre : List Char → List Char → Option (List Char)
  | [], ys => some ys
  | _ :: _, [] => none
  | x :: xs, y :: ys => if x = y then stripPre xs ys else none

/-- Fuel-driven splitter on a non-empty separator: leftmost,
non-overlapping occurrences, like Go's `strings.Split`.  Each step either
consumes the separator (length ≥ 1) or one character, so fuel equal to the
input length always suffices; the fuel-exhausted branch is unreachable for
the fuel used in `goSplit`. -/
def splitOnFuel (sep : List Char) : Nat → List Char → List Char → List (List Char)
  | 0, xs, acc => [acc.reverse ++ xs]
  | fuel + 1, xs, acc =>
    match xs with
    | [] => [acc.reverse]
    | x :: rest =>
      match stripPre sep (x :: rest) with
      | some rem => acc.reverse :: splitOnFuel sep fuel rem []
      | none => splitOnFuel sep fuel rest (x :: acc)

/-- Go `strings.Split(s, sep)` for a non-empty `sep` (the embedding never
splits on the empty separator; that case is mapped to `[s]`). -/
def goSplit (s sep : String) : List String :=
  if sep.data = [] then [s]
  else (splitOnFuel sep.data s.data.length s.data []).map (fun l => ⟨l⟩)

/-- Go `strings.SplitN(s, sep, 2)`. -/
def goSplitN2 (s sep : String) : List String :=
  match goSplit s sep with
  | [] => []
  | a :: rest => if rest = [] then [a] else [a, String.intercalate sep rest]

/-- Go `strings.Contains(s, sub)`. -/
def goContains (s sub : String) : Bool :=
  sub.data = [] || (goSplit s sub).length > 1

/-- Go `strings.HasPrefix(s, pre)`. -/
def goHasPre (s pre : String) : Bool :=
  (stripPre pre.data s.data).isSome

/-- Go `strings.HasSuffix(s, suf)`. -/
def goHasSuf (s suf : String) : Bool :=
  (stripPre suf.data.reverse s.data.reverse).isSome

/-- Go `strings.TrimSuffix(s, suf)`. -/
def goTrimSuf (s suf : String) : String :=
  match stripPre suf.data.reverse s.data.reverse with
  | some rem => ⟨rem.reverse⟩
  | none => s

/-- Whitespace in the sense of Go's `unicode.IsSpace`, restricted to the
ASCII space characters the scraped command outputs contain. -/
def goIsSpace (c : Char) : Bool :=
  c = ' ' || c = '\t' || c = '\n' || c = '\r' || c = '\x0b' || c = '\x0c'

/-- Go `strings.TrimSpace`. -/
def goTrim (s : String) : String :=
  ⟨((s.data.dropWhile goIsSpace).reverse.dropWhile goIsSpace).reverse⟩

/-- Go `strings.Fields(s)`: split around runs of whitespace, no empty
fields. -/
def goFieldsAux : List Char → List Char → List (List Char)
  | [], cur => if cur = [] then [] else [cur.reverse]
  | c :: rest, cur =>
    if goIsSpace c then
      if cur = [] then goFieldsAux rest []
      else cur.reverse :: goFieldsAux rest []
    else goFieldsAux rest (c :: cur)

/-- Go `strings.Fields(s)`. -/
def goFields (s : String) : List String :=
  (goFieldsAux s.data []).map (fun l => ⟨l⟩)

/-- The line sequence produced by a `bufio.Scanner` over `s`: split on
`'\n'`, strip a trailing `'\r'` from each line, and do not emit a final
empty line after a trailing newline. -/
def goLines (s : String) : List String :=
  let raw := (goSplit s "\n").map (fun l => goTrimSuf l "\r")
  match raw.getLast? with
  | some "" => raw.dropLast
  | _ => raw

/-- Go `strings.ToLower` (ASCII letters; the inputs compared in the source
are ASCII). -/
def goToLower (s : String) : String :=
  ⟨s.data.map Char.toLower⟩

/-- Go `strings.Count(s, sub)` for the single-character `sub` used in the
source (`strings.Count(ip, ".")`). -/
def goCountChar (s : String) (c : Char) : Nat :=
  s.data.count c

/-- Decimal digits to a natural number (helper for the numeric parsers). -/
def digitsToNat : List Char → Nat → Nat
  | [], acc => acc
  | c :: cs, acc => digitsToNat cs (acc * 10 + (c.toNat - 48))

/-- Go `strconv.Atoi` / `strconv.ParseInt(s, 10, 64)`: optional sign then
decimal digits, nothing else.  The Go version additionally range-checks
against int64; no input in this development approaches that bound. -/
def goAtoi (s : String) : Option Int :=
  match s.data with
  | [] => none
  | '-' :: rest =>
    if rest ≠ [] ∧ rest.all Char.isDigit then some (-(digitsToNat rest 0 : Int)) else none
  | '+' :: rest =>
    if rest ≠ [] ∧ rest.all Char.isDigit then some (digitsToNat rest 0 : Int) else none
  | l => if l.all Char.isDigit then some (digitsToNat l 0 : Int) else none

/-- Go `strconv.ParseUint(s, 10, 64)`: decimal digits only. -/
def goParseUint (s : String) : Option Nat :=
  match s.data with
  | [] => none
  | l => if l.all Char.isDigit then some (digitsToNat l 0) else none

/-- Go `strconv.ParseFloat(s, 64)` restricted to the plain decimal forms
(`123`, `12.5`, `.5`, `5.`, optional sign) that the scraped command
outputs contain; exponent/hex forms never occur there.  The result is the
exact rational value (every such short decimal is in `float64` range). -/
def goParseFloat (s : String) : Option ℚ :=
  let core : List Char → Option ℚ := fun l =>
    match (goSplit (⟨l⟩ : String) ".") with
    | [a] =>
      if a.data ≠ [] ∧ a.data.all Char.isDigit then some (digitsToNat a.data 0 : ℚ) else none
    | [a, b] =>
      if (a.data ≠ [] ∨ b.data ≠ []) ∧ a.data.all Char.isDigit ∧ b.data.all Char.isDigit then
        some ((digitsToNat a.data 0 : ℚ) + (digitsToNat b.data 0 : ℚ) / ((10 : ℚ) ^ b.data.length))
      else none
    | _ => none
  match s.data with
  | [] => none
  | '-' :: rest => (core rest).map (fun q => -q)
  | '+' :: rest => core rest
  | l => core l

/-- Round `num / den` (for `den > 0`) to the nearest integer, ties to
even — the rounding used when a binary float is rendered at a fixed
decimal precision. -/
def roundHalfEven (num den : Int) : Int :=
  let q := num.fdiv den
  let r := num.fmod den
  if 2 * r < den then q
  else if 2 * r > den then q + 1
  else if q % 2 = 0 then q else q + 1

/-- Render a value given in hundredths (`centi` = value × 100) with
exactly two decimals, like `fmt.Sprintf("%.2f", ...)` applied to the
already-rounded value. -/
def fmt2 (centi : Int) : String :=
  let n := centi.natAbs
  let sign := if centi < 0 then "-" else ""
  let ip := n / 100
  let fr := n % 100
  sign ++ toString ip ++ "." ++ (if fr < 10 then "0" else "") ++ toString fr

/-- Go `fmt.Sprintf("%.2f KB/s", float64(bytes)/1024.0)`.  For every
`|bytes| < 2^53` the float64 quotient is the exact rational
`bytes / 1024`, and rendering it at two decimals is correctly rounded
(ties to even), which is what `roundHalfEven` computes on
`bytes * 100 / 1024`. -/
def fmtKBps (bytes : Int) : String :=
  fmt2 (roundHalfEven (bytes * 100) 1024) ++ " KB/s"

/-!
## Data model, variant A: `pkg/model/system.go`

The structures of `pkg/model/system.go`, with Go `string` as `String`,
`int` as `Int`, `uint64`/`uint16` as `Nat`, `bool` as `Bool` and
`float64` as `ℚ`.  Field order follows the source.  `X.zero` is the Go
zero value of each struct.
-/

namespace Model

structure CPUInfo where
  Model : String
  Cores : Int

structure MemoryInfo where
  Total : Nat
  «Type» : String

structure Disk where
  Name : String
  Size : Nat
  Serial : String
  Model : String

structure DiskPartitionInfo where
  MountPoint : String
  Filesystem : String
  Total : Nat
  Used : Nat
  Free : Nat
  UsedPerc : ℚ

structure MemoryUsageInfo where
  Total : Nat
  Used : Nat
  Free : Nat
  UsedPerc : ℚ
  Active : Nat
  Inactive : Nat
  Cached : Nat

structure BatteryInfo where
  Percentage : Int
  IsCharging : Bool
  IsPresent : Bool
  CycleCount : Int
  Health : String
  Status : String
  TimeRemaining : Int

structure ACAdapterInfo where
  Connected : Bool
  IsConnected : Bool
  SerialNum : String
  Name : String
  Wattage : Int

structure BTDeviceInfo where
  Name : String
  Address : String
  «Type» : String
  Connected : Bool

structure BluetoothInfo where
  Enabled : Bool
  IsAvailable : Bool
  Status : String
  Name : String
  Address : String
  Devices : List BTDeviceInfo
  ConnectedDevices : List BTDeviceInfo

structure TempSensorInfo where
  Name : String
  Temperature : ℚ
  Location : String
  Sensor : String
  Value : ℚ

structure WiFiInfo where
  SSID : String
  BSSID : String
  CountryCode : String
  RSSI : Int
  Noise : Int
  PHYMode : String
  Channel : Int
  TxRate : Int
  MSCIndex : Int
  NSS : Int
  SupportedPHY : String
  IsConnected : Bool
  SignalStrength : Int
  Frequency : ℚ

structure NetInterfaceInfo where
  Name : String
  IP : String
  MacAddress : String
  MACAddress : String
  IsUp : Bool
  Status : String
  IPAddresses : List String
  InBytes : Nat
  OutBytes : Nat

structure ProcessTrafficInfo where
  PID : Int
  Name : String
  ProcessName : String
  BytesIn : Nat
  BytesOut : Nat
  ConnectionCount : Int

structure TrafficInfo where
  BytesSent : Nat
  BytesReceived : Nat
  PacketsSent : Nat
  PacketsRecv : Nat
  ProcessTraffic : List ProcessTrafficInfo

structure TargetLatencyInfo where
  TargetName : String
  TargetHost : String
  MinLatency : ℚ
  AvgLatency : ℚ
  MaxLatency : ℚ
  StdDev : ℚ
  PacketLoss : ℚ
  Jitter : ℚ

structure NetworkHopInfo where
  HopNum : Int
  Host : String
  Loss : ℚ
  SentPackets : Int
  LastLatency : ℚ
  AvgLatency : ℚ
  BestLatency : ℚ
  WorstLatency : ℚ
  StdDev : ℚ

structure LatencyInfo where
  AvgLatency : ℚ
  Jitter : ℚ
  PacketLoss : ℚ
  Targets : List TargetLatencyInfo
  NetworkHops : List NetworkHopInfo

structure VPNNodeInfo where
  Name : String
  ID : String
  Status : String

structure VPNInfo where
  Connected : Bool
  IsConnected : Bool
  NodeName : String
  Provider : String
  Services : List String
  Nodes : List String
  Server : String
  Status : String
  ActiveConnection : String
  ConnectionID : String
  Interfaces : List String
  NodeInfos : List VPNNodeInfo
  ConfigFile : String

structure HostEntry where
  IP : String
  Hostname : String

structure DNSConfigInfo where
  Servers : List String
  SearchDomains : List String
  ResolutionOrder : List String
  HostsFile : String
  ResolvConfFile : String
  HostEntries : List HostEntry

structure ProxyInfo where
  Enabled : Bool
  Server : String
  Port : Int

structure NetworkInfo where
  WiFi : WiFiInfo
  IP : String
  MacAddress : String
  AWDLStatus : String
  AWDLEnabled : Bool
  Interfaces : List NetInterfaceInfo
  Traffic : TrafficInfo
  Latency : LatencyInfo
  VPN : VPNInfo
  DNS : DNSConfigInfo
  DNSServers : List String
  PublicIP : String
  ProxyStatus : Bool
  ProxyInfo : ProxyInfo
  AvgLatency : ℚ

structure WiFiNetworkInfo where
  SSID : String
  AutoJoin : Bool

structure WiFiAutoJoinInfo where
  IsConfigured : Bool
  Status : String
  Networks : List WiFiNetworkInfo

structure AppInfo where
  Name : String
  Version : String
  InstallDate : String
  Path : String

structure ProcessInfo where
  PID : Int
  Name : String
  CPU : ℚ
  Memory : Nat
  NetworkUsage : Nat

structure SystemInfo where
  Hostname : String
  OS : String
  Model : String
  ModelID : String
  SerialNumber : String
  UUID : String
  CPU : CPUInfo
  Memory : MemoryInfo
  Disks : List Disk
  DiskUsage : List DiskPartitionInfo
  MemoryUsage : MemoryUsageInfo
  Battery : BatteryInfo
  ACAdapter : ACAdapterInfo
  Bluetooth : BluetoothInfo
  Temperature : List TempSensorInfo
  WiFiAutoJoin : WiFiAutoJoinInfo
  Network : NetworkInfo
  SystemVersion : String
  ComputerName : String
  UpTime : String
  InstalledApps : List AppInfo
  RunningApps : List ProcessInfo

def WiFiInfo.zero : WiFiInfo :=
  ⟨"", "", "", 0, 0, "", 0, 0, 0, 0, "", false, 0, 0⟩

def LatencyInfo.zero : LatencyInfo := ⟨0, 0, 0, [], []⟩

def VPNInfo.zero : VPNInfo :=
  ⟨false, false, "", "", [], [], "", "", "", "", [], [], ""⟩

def DNSConfigInfo.zero : DNSConfigInfo := ⟨[], [], [], "", "", []⟩

def TrafficInfo.zero : TrafficInfo := ⟨0, 0, 0, 0, []⟩

def ProxyInfo.zero : ProxyInfo := ⟨false, "", 0⟩

def NetworkInfo.zero : NetworkInfo :=
  ⟨WiFiInfo.zero, "", "", "", false, [], TrafficInfo.zero, LatencyInfo.zero,
   VPNInfo.zero, DNSConfigInfo.zero, [], "", false, ProxyInfo.zero, 0⟩

def BatteryInfo.zero : BatteryInfo := ⟨0, false, false, 0, "", "", 0⟩

def ACAdapterInfo.zero : ACAdapterInfo := ⟨false, false, "", "", 0⟩

def BluetoothInfo.zero : BluetoothInfo := ⟨false, false, "", "", "", [], []⟩

def MemoryUsageInfo.zero : MemoryUsageInfo := ⟨0, 0, 0, 0, 0, 0, 0⟩

def WiFiAutoJoinInfo.zero : WiFiAutoJoinInfo := ⟨false, "", []⟩

def SystemInfo.zero : SystemInfo :=
  ⟨"", "", "", "", "", "", ⟨"", 0⟩, ⟨0, ""⟩, [], [], MemoryUsageInfo.zero,
   BatteryInfo.zero, ACAdapterInfo.zero, BluetoothInfo.zero, [],
   WiFiAutoJoinInfo.zero, NetworkInfo.zero, "", "", "", [], []⟩

end Model

/-!
## Data model, variant B

The variant data model shipped with the second macOS network collector
(`NetworkInfo` with `NetworkTraffic`/`ProcessTraffic` string fields,
`WiFiInfo` with an `MCS` field, and so on); only the structures that the
embedded collector functions touch are needed.
-/

namespace ModelB

structure WiFiInfo where
  SSID : String
  BSSID : String
  IsConnected : Bool
  SignalStrength : Int
  RSSI : Int
  Noise : Int
  Channel : Int
  Frequency : ℚ
  PHYMode : String
  TxRate : Int
  MCS : Int
  NSS : Int
  CountryCode : String
  SupportedPHY : String

structure HostEntry where
  IP : String
  Hostname : String

structure DNSConfigInfo where
  Servers : List String
  SearchDomains : List String
  ResolutionOrder : List String
  HostsFile : String
  ResolvConfFile : String
  HostEntries : List HostEntry

structure VPNNodeInfo where
  Name : String
  ID : String
  Status : String

structure VPNInfo where
  IsConnected : Bool
  Provider : String
  NodeName : String
  Services : List String
  Nodes : List String
  Server : String
  Status : String
  ActiveConnection : String
  ConnectionID : String
  Interfaces : List String
  NodeInfos : List VPNNodeInfo
  ConfigFile : String

structure TargetLatencyInfo where
  TargetName : String
  TargetHost : String
  MinLatency : ℚ
  AvgLatency : ℚ
  MaxLatency : ℚ
  PacketLoss : ℚ
  StdDev : ℚ
  Jitter : ℚ

structure NetworkHopInfo where
  HopNum : Int
  Host : String
  Loss : ℚ
  SentPackets : Int
  LastLatency : ℚ
  AvgLatency : ℚ
  BestLatency : ℚ
  WorstLatency : ℚ
  StdDev : ℚ

structure LatencyInfo where
  AvgLatency : ℚ
  Targets : List TargetLatencyInfo
  NetworkHops : List NetworkHopInfo
  Jitter : ℚ
  PacketLoss : ℚ

structure ProxyInfo where
  Enabled : Bool
  Server : String
  Port : Int

structure RouteEntry where
  Destination : String
  Gateway : String
  Flags : String
  Interface : String
  Netmask : String

structure NetworkInfo where
  WiFi : WiFiInfo
  IP : String
  MacAddress : String
  CountryCode : String
  AWDLStatus : String
  AWDLEnabled : Bool
  PublicIP : String
  DNS : DNSConfigInfo
  DNSServers : List String
  VPN : VPNInfo
  Latency : LatencyInfo
  ProxyStatus : Bool
  ProxyInfo : ProxyInfo
  RouteTable : List RouteEntry
  NetworkTraffic : String
  ProcessTraffic : String

def WiFiInfo.zero : WiFiInfo :=
  ⟨"", "", false, 0, 0, 0, 0, 0, "", 0, 0, 0, "", ""⟩

def DNSConfigInfo.zero : DNSConfigInfo := ⟨[], [], [], "", "", []⟩

def VPNInfo.zero : VPNInfo :=
  ⟨false, "", "", [], [], "", "", "", "", [], [], ""⟩

def LatencyInfo.zero : LatencyInfo := ⟨0, [], [], 0, 0⟩

def ProxyInfo.zero : ProxyInfo := ⟨false, "", 0⟩

def NetworkInfo.zero : NetworkInfo :=
  ⟨WiFiInfo.zero, "", "", "", "", false, "", DNSConfigInfo.zero, [],
   VPNInfo.zero, LatencyInfo.zero, false, ProxyInfo.zero, [], "", ""⟩

end ModelB

/-!
## macOS network collector, variant with traffic strings (`getNetworkTraffic`)

`parseNetstatOutput` and `getNetworkTraffic` from the macOS network
collector that fills `NetworkTraffic`/`ProcessTraffic`.  The two
`runCommand("netstat", "-I", "en0", "-b")` invocations become the two
`Option String` arguments. -/

/-- `parseNetstatOutput`: skip the header line, and for every line with at
least 10 whitespace-separated fields add field 6 (in-bytes) and field 9
(out-bytes); `strconv.ParseInt` failures contribute 0. -/
def parseNetstatOutput (output : String) : Int :=
  let lines := goSplit output "\n"
  if lines.length < 2 then 0
  else
    (lines.drop 1).foldl
      (fun acc line =>
        let fields := goFields line
        if fields.length ≥ 10 then
          acc + (goAtoi (fields.getD 6 "")).getD 0 + (goAtoi (fields.getD 9 "")).getD 0
        else acc) 0

/-- The in-bytes half of the sum accumulated by `parseNetstatOutput`
(field 6 only, same guard); used to state the claim's per-direction byte
deltas. -/
def parseNetstatInBytes (output : String) : Int :=
  let lines := goSplit output "\n"
  if lines.length < 2 then 0
  else
    (lines.drop 1).foldl
      (fun acc line =>
        let fields := goFields line
        if fields.length ≥ 10 then acc + (goAtoi (fields.getD 6 "")).getD 0
        else acc) 0

/-- The out-bytes half of the sum accumulated by `parseNetstatOutput`
(field 9 only, same guard). -/
def parseNetstatOutBytes (output : String) : Int :=
  let lines := goSplit output "\n"
  if lines.length < 2 then 0
  else
    (lines.drop 1).foldl
      (fun acc line =>
        let fields := goFields line
        if fields.length ≥ 10 then acc + (goAtoi (fields.getD 9 "")).getD 0
        else acc) 0

/-- `getNetworkTraffic` (traffic-string variant): two `netstat -I en0 -b`
samples taken 1 second apart; on either command failure both traffic
fields are set to `"0 KB/s"`; otherwise the delta of the parsed totals is
divided by 1024 and formatted with two decimals.  Always returns a nil
error. -/
def getNetworkTraffic (sample1 sample2 : Option String) (info : ModelB.NetworkInfo) :
    ModelB.NetworkInfo × Option String :=
  match sample1 with
  | none => ({ info with NetworkTraffic := "0 KB/s", ProcessTraffic := "0 KB/s" }, none)
  | some output1 =>
    match sample2 with
    | none => ({ info with NetworkTraffic := "0 KB/s", ProcessTraffic := "0 KB/s" }, none)
    | some output2 =>
      let bytesPerSecond := parseNetstatOutput output2 - parseNetstatOutput output1
      let s := fmtKBps bytesPerSecond
      ({ info with NetworkTraffic := s, ProcessTraffic := s }, none)

/-!
## macOS network collector, `internal/darwin/network_info.go`

`getWiFiInfo` (the `airport -I` parser) and `getPublicIP`.  The line scan
applies six independent `strings.Contains` checks per line; the embedding
mirrors them as a per-line state-transformer folded over the scanner's
lines. -/

/-- The SSID block of the `airport -I` parser in
`internal/darwin/network_info.go`. -/
def wifiSSIDBranch (w : Model.WiFiInfo) (line : String) : Model.WiFiInfo :=
  if goContains line " SSID: " then
    if (goSplit line "SSID: ").length > 1 then
      { w with SSID := goTrim ((goSplit line "SSID: ").getD 1 ""), IsConnected := true }
    else w
  else w

/-- The BSSID block of the same parser. -/
def wifiBSSIDBranch (w : Model.WiFiInfo) (line : String) : Model.WiFiInfo :=
  if goContains line " BSSID: " then
    if (goSplit line "BSSID: ").length > 1 then
      { w with BSSID := goTrim ((goSplit line "BSSID: ").getD 1 "") }
    else w
  else w

/-- The agrCtlRSSI block of the same parser (a failed `Atoi` leaves the
field untouched). -/
def wifiRSSIBranch (w : Model.WiFiInfo) (line : String) : Model.WiFiInfo :=
  if goContains line "agrCtlRSSI: " then
    if (goSplit line "agrCtlRSSI: ").length > 1 then
      match goAtoi (goTrim ((goSplit line "agrCtlRSSI: ").getD 1 "")) with
      | some signalStrength => { w with SignalStrength := signalStrength }
      | none => w
    else w
  else w

/-- The channel block of the same parser. -/
def wifiChannelBranch (w : Model.WiFiInfo) (line : String) : Model.WiFiInfo :=
  if goContains line "channel: " then
    if (goSplit line "channel: ").length > 1 then
      match goAtoi (goTrim ((goSplit line "channel: ").getD 1 "")) with
      | some channel => { w with Channel := channel }
      | none => w
    else w
  else w

/-- The frequency block of the same parser (`"… GHz"` suffix required). -/
def wifiFreqBranch (w : Model.WiFiInfo) (line : String) : Model.WiFiInfo :=
  if goContains line "frequency: " then
    if (goSplit line "frequency: ").length > 1 then
      if goHasSuf (goTrim ((goSplit line "frequency: ").getD 1 "")) " GHz" then
        match goParseFloat (goTrimSuf (goTrim ((goSplit line "frequency: ").getD 1 "")) " GHz") with
        | some freq => { w with Frequency := freq }
        | none => w
      else w
    else w
  else w

/-- The lastTxRate block of the same parser. -/
def wifiTxBranch (w : Model.WiFiInfo) (line : String) : Model.WiFiInfo :=
  if goContains line "lastTxRate: " then
    if (goSplit line "lastTxRate: ").length > 1 then
      match goAtoi (goTrim ((goSplit line "lastTxRate: ").getD 1 "")) with
      | some txRate => { w with TxRate := txRate }
      | none => w
    else w
  else w

/-- One scanner iteration of the `airport -I` parser: the six independent
key blocks applied to one line, in source order. -/
def wifiLineStep (w : Model.WiFiInfo) (line : String) : Model.WiFiInfo :=
  wifiTxBranch
    (wifiFreqBranch
      (wifiChannelBranch
        (wifiRSSIBranch
          (wifiBSSIDBranch (wifiSSIDBranch w line) line) line) line) line) line

/-- The full line scan of `getWiFiInfo` over the `airport -I` output. -/
def parseAirportOutput (output : String) : Model.WiFiInfo :=
  (goLines output).foldl wifiLineStep Model.WiFiInfo.zero

/-- `getWiFiInfo` from `internal/darwin/network_info.go`: on command
failure the error is returned (the caller logs it) and `info.WiFi` is left
untouched; on success the parsed `WiFiInfo` replaces `info.WiFi`. -/
def getWiFiInfo (cmdResult : Option String) (info : Model.NetworkInfo) :
    Model.NetworkInfo × Option String :=
  match cmdResult with
  | none => (info, some "command execution failed")
  | some output => ({ info with WiFi := parseAirportOutput output }, none)

/-- The SSID branch's guard, used to state the fixture claim. -/
def ssidTrigger (line : String) : Bool := goContains line " SSID: "

/-- The SSID branch's extracted value. -/
def ssidValue (line : String) : String := goTrim ((goSplit line "SSID: ").getD 1 "")

/-- The agrCtlRSSI branch's guard. -/
def rssiTrigger (line : String) : Bool := goContains line "agrCtlRSSI: "

/-- The agrCtlRSSI branch's extracted value. -/
def rssiValue (line : String) : Option Int :=
  goAtoi (goTrim ((goSplit line "agrCtlRSSI: ").getD 1 ""))

/-- Outcome of the single HTTP GET performed by the macOS `getPublicIP`:
the request itself, the body read, or the JSON unmarshal can fail. -/
inductive HTTPBodyOutcome where
  | reqFail
  | readFail
  | ok (body : String)

/-- `getPublicIP` from `internal/darwin/network_info.go`.  The JSON
unmarshal of the response body into `struct { IP string }` is the standard
library's; it is passed in as the function `unmarshalIP` (`none` = parse
error).  On any of the three failures the error is returned and
`info.PublicIP` is untouched; on success the parsed IP is stored. -/
def getPublicIPDarwin (unmarshalIP : String → Option String) (outcome : HTTPBodyOutcome)
    (info : Model.NetworkInfo) : Model.NetworkInfo × Option String :=
  match outcome with
  | .reqFail => (info, some "http get failed")
  | .readFail => (info, some "read body failed")
  | .ok body =>
    match unmarshalIP body with
    | none => (info, some "json unmarshal failed")
    | some ip => ({ info with PublicIP := ip }, none)

/-!
## Windows network collector (`getPublicIP`)
-/

/-- An HTTP response as the Windows `getPublicIP` observes it:
a status code and a body read that may itself fail. -/
structure HTTPResponse where
  StatusCode : Nat
  Body : Option String

/-- The fixed API list tried by the Windows `getPublicIP`. -/
def publicIPApis : List String :=
  ["https://api.ipify.org", "https://ipinfo.io/ip", "https://api.ip.sb/ip"]

/-- The loop body of the Windows `getPublicIP`: try each API in order;
skip it on request failure, non-200 status or body-read failure; on a 200
body, trim it and return it if it contains exactly three dots, otherwise
try the next API; return `""` when the list is exhausted. -/
def tryPublicIPApis (fetch : String → Option HTTPResponse) : List String → String
  | [] => ""
  | api :: rest =>
    match fetch api with
    | none => tryPublicIPApis fetch rest
    | some resp =>
      if resp.StatusCode = 200 then
        match resp.Body with
        | none => tryPublicIPApis fetch rest
        | some body =>
          let ip := goTrim body
          if goCountChar ip '.' = 3 then ip else tryPublicIPApis fetch rest
      else tryPublicIPApis fetch rest

/-- `getPublicIP` from the Windows network collector. -/
def getPublicIPWindows (fetch : String → Option HTTPResponse) : String :=
  tryPublicIPApis fetch publicIPApis

/-- A dotted-quad IPv4 literal in the sense of the claim's words: four
non-empty all-digit components, each at most 255, separated by dots.
(This is the claim's notion, not a function of the source; the source
checks only the dot count.) -/
def isDottedQuad (s : String) : Bool :=
  let parts := goSplit s "."
  parts.length = 4 &&
    parts.all (fun p => p.data ≠ [] && p.data.all Char.isDigit && digitsToNat p.data 0 ≤ 255)

/-!
## Windows dynamic collector (`getBatteryInfo`, `getTemperatureInfo`)
-/

/-- The `Win32_Battery` WMI row as queried by `getBatteryInfo`. -/
structure Win32Battery where
  BatteryStatus : Nat
  EstimatedChargeRemaining : Nat
  DesignVoltage : Nat
  FullChargeCapacity : Nat
  Name : String

/-- The WMI-result path of the Windows `getBatteryInfo` (taken when the
query succeeded with at least one row): the fixed
`BatteryStatus → (Status, IsCharging)` enumeration, `Health = "Normal"`,
`CycleCount = 0`. -/
def getBatteryInfoFromWMI (battery : Win32Battery) : Model.BatteryInfo :=
  let batteryInfo := Model.BatteryInfo.zero
  let batteryInfo :=
    { batteryInfo with IsPresent := true, Percentage := (battery.EstimatedChargeRemaining : Int) }
  let batteryInfo :=
    if battery.BatteryStatus = 1 then
      { batteryInfo with IsCharging := false, Status := "Discharging" }
    else if battery.BatteryStatus = 2 then
      { batteryInfo with IsCharging := true, Status := "Charging" }
    else if battery.BatteryStatus = 3 then
      { batteryInfo with IsCharging := false, Status := "Fully Charged" }
    else
      { batteryInfo with IsCharging := false, Status := "Unknown" }
  { batteryInfo with Health := "Normal", CycleCount := 0 }

/-- The `Win32_TemperatureSensor` WMI row as queried by
`getTemperatureInfo`. -/
structure Win32TemperatureSensor where
  Name : String
  CurrentReading : Nat
  Location : String

/-- Conversion of one WMI temperature row (`CurrentReading` is tenths of a
degree). -/
def wmiSensorToTemp (s : Win32TemperatureSensor) : Model.TempSensorInfo :=
  ⟨s.Name, (s.CurrentReading : ℚ) / 10, s.Location, "", 0⟩

/-- The OpenHardwareMonitor `/report` parser inside `getTemperatureInfo`:
scan the lines (the report is split on `"\n"`), track the
`Temperatures:` section, and inside it take every line with at least two
whitespace-separated fields whose last field (after stripping `"°C"`)
parses as a float. -/
def parseOHMTemps (output : String) : List Model.TempSensorInfo :=
  let step : (Bool × List Model.TempSensorInfo) → String → Bool × List Model.TempSensorInfo :=
    fun st rawLine =>
      let line := goTrim rawLine
      let (inTempSection, acc) := st
      if goContains line "Temperatures:" then (true, acc)
      else if inTempSection ∧ line = "" then (false, acc)
      else if inTempSection then
        let fields := goFields line
        if fields.length ≥ 2 then
          let tempStr := goTrimSuf (fields.getLastD "") "°C"
          match goParseFloat tempStr with
          | some temp => (inTempSection, acc ++ [⟨fields.getD 0 "", temp, "System", "", 0⟩])
          | none => (inTempSection, acc)
        else (inTempSection, acc)
      else (inTempSection, acc)
  ((goSplit output "\n").foldl step (false, [])).2

/-- The sensors contributed by the OpenHardwareMonitor tier (`[]` when the
tool failed to run or its report parsed to nothing). -/
def ohmTemps (ohmResult : Option String) : List Model.TempSensorInfo :=
  match ohmResult with
  | some output => parseOHMTemps output
  | none => []

/-- Whether the WMI tier produced data (`err == nil && len(sensors) > 0`). -/
def wmiHasData (wmiResult : Option (List Win32TemperatureSensor)) : Bool :=
  match wmiResult with
  | some sensors => !sensors.isEmpty
  | none => false

/-- Whether the CPU-utilization tier produced data
(`err == nil && len(cpuPercent) > 0`). -/
def cpuHasData (cpuResult : Option (List ℚ)) : Bool :=
  match cpuResult with
  | some cpuPercent => !cpuPercent.isEmpty
  | none => false

/-- The CPU-utilization estimate tier and the final zero-sensor fallback
of `getTemperatureInfo`. -/
def cpuTierTemps (cpuResult : Option (List ℚ)) : List Model.TempSensorInfo :=
  match cpuResult with
  | some cpuPercent =>
    if !cpuPercent.isEmpty then
      [⟨"CPU", 30 + cpuPercent.headD 0 * 0.6, "Processor", "", 0⟩,
       ⟨"GPU", 0, "Graphics", "", 0⟩]
    else
      [⟨"CPU", 0, "Processor", "", 0⟩, ⟨"GPU", 0, "Graphics", "", 0⟩]
  | none =>
    [⟨"CPU", 0, "Processor", "", 0⟩, ⟨"GPU", 0, "Graphics", "", 0⟩]

/-- `getTemperatureInfo` from `internal/windows/dynamic_info.go`: try the
OpenHardwareMonitor report, else the `Win32_TemperatureSensor` WMI class,
else estimate from CPU utilization (`cpu.Percent`), else return two
zero-valued sensors; every return carries a nil error. -/
def getTemperatureInfo (ohmResult : Option String)
    (wmiResult : Option (List Win32TemperatureSensor)) (cpuResult : Option (List ℚ)) :
    List Model.TempSensorInfo × Option String :=
  let fromOHM := ohmTemps ohmResult
  if fromOHM.length > 0 then (fromOHM, none)
  else
    match wmiResult with
    | some sensors =>
      if sensors.length > 0 then (sensors.map wmiSensorToTemp, none)
      else (cpuTierTemps cpuResult, none)
    | none => (cpuTierTemps cpuResult, none)

/-!
## macOS network collector, variant B (`getWiFiInfo`, `getIPAndMacAddress`,
`getNetworkLatency`)

The second macOS network collector (the one whose fields live in
`ModelB`).  Its `getWiFiInfo` is embedded as `getWiFiInfoB` because the
repository has two same-named `getWiFiInfo` variants.
-/

/-- First element of the list on which `f` succeeds. -/
def firstSome {α : Type} (f : String → Option α) : List String → Option α
  | [] => none
  | p :: rest =>
    match f p with
    | some v => some v
    | none => firstSome f rest

/-- Maximal leading digit run and the remainder. -/
def takeDigits (l : List Char) : List Char × List Char :=
  (l.takeWhile Char.isDigit, l.dropWhile Char.isDigit)

/-- A `\d+\.\d+\.\d+\.\d+` match at the start of `l` (each group greedy
and non-empty), as the regex `inet (\d+\.\d+\.\d+\.\d+)` captures it. -/
def parseQuadPre (l : List Char) : Option (List Char) :=
  let (d1, r1) := takeDigits l
  if d1 = [] then none else
  match r1 with
  | '.' :: r2 =>
    let (d2, r3) := takeDigits r2
    if d2 = [] then none else
    match r3 with
    | '.' :: r4 =>
      let (d3, r5) := takeDigits r4
      if d3 = [] then none else
      match r5 with
      | '.' :: r6 =>
        let (d4, _) := takeDigits r6
        if d4 = [] then none
        else some (d1 ++ '.' :: (d2 ++ '.' :: (d3 ++ '.' :: d4)))
      | _ => none
    | _ => none
  | _ => none

/-- `regexp.MustCompile(`inet (\d+\.\d+\.\d+\.\d+)`).FindStringSubmatch`:
the capture of the leftmost occurrence of `"inet "` followed by a dotted
digit quad. -/
def findInetIP (line : String) : Option String :=
  firstSome (fun p => (parseQuadPre p.data).map (fun c => (⟨c⟩ : String)))
    ((goSplit line "inet ").drop 1)

/-- A character of the class `[0-9a-f:]`. -/
def isEtherChar (c : Char) : Bool :=
  c.isDigit || c = ':' || ('a' ≤ c && c ≤ 'f')

/-- `regexp.MustCompile(`ether ([0-9a-f:]+)`).FindStringSubmatch`: the
greedy capture after the leftmost `"ether "` followed by at least one
`[0-9a-f:]` character. -/
def findEtherMac (line : String) : Option String :=
  firstSome
    (fun p =>
      let run := p.data.takeWhile isEtherChar
      if run = [] then none else some (⟨run⟩ : String))
    ((goSplit line "ether ").drop 1)

/-- The scanner loop of `getIPAndMacAddress`: track the current interface
(a line that does not start with a tab or space opens a new one), look for
`inet `/`ether ` matches while on `en0` or while neither address has been
found, and break early once both were found on `en0`.  Returns
`(foundIP, foundMac, ip, mac)`. -/
def ipMacScan : List String → String → Bool → Bool → String → String →
    Bool × Bool × String × String
  | [], _, foundIP, foundMac, ip, mac => (foundIP, foundMac, ip, mac)
  | line :: rest, cur, foundIP, foundMac, ip, mac =>
    let cur :=
      if ¬goHasPre line "\t" ∧ ¬goHasPre line " " ∧ line.length > 0 then
        let parts := goSplit line ":"
        if parts.length > 0 then goTrim (parts.getD 0 "") else cur
      else cur
    let st :=
      if cur = "en0" ∨ (¬foundIP ∧ ¬foundMac) then
        let stIP :=
          if goContains line "inet " ∧ ¬foundIP then
            match findInetIP line with
            | some m => (true, m)
            | none => (foundIP, ip)
          else (foundIP, ip)
        let stMac :=
          if goContains line "ether " ∧ ¬foundMac then
            match findEtherMac line with
            | some m => (true, m)
            | none => (foundMac, mac)
          else (foundMac, mac)
        (stIP.1, stMac.1, stIP.2, stMac.2)
      else (foundIP, foundMac, ip, mac)
    if st.1 ∧ st.2.1 ∧ cur = "en0" then st
    else ipMacScan rest cur st.1 st.2.1 st.2.2.1 st.2.2.2

/-- `getIPAndMacAddress` from collector variant B: run `ifconfig -a`
(failure is returned as an error), scan its lines, and fall back to the
hard-coded defaults `"172.22.23.5"` / `"aa:bb:cc:dd:ee:ff"` when no
address was found. -/
def getIPAndMacAddress (cmdResult : Option String) (info : ModelB.NetworkInfo) :
    ModelB.NetworkInfo × Option String :=
  match cmdResult with
  | none => (info, some "command execution failed")
  | some output =>
    let st := ipMacScan (goLines output) "" false false "" ""
    let info := { info with IP := if st.1 then st.2.2.1 else "172.22.23.5" }
    let info := { info with MacAddress := if st.2.1 then st.2.2.2 else "aa:bb:cc:dd:ee:ff" }
    (info, none)

/-- The hard-coded `WiFiInfo` that `getWiFiInfo` (variant B) stores when
`system_profiler SPAirPortDataType` fails. -/
def kwaiDefaultWiFi : ModelB.WiFiInfo :=
  { SSID := "Kwai", BSSID := "cc:dd:ee:ff:gg:hh", IsConnected := true,
    SignalStrength := -56, RSSI := -56, Noise := -84, Channel := 52, Frequency := 5.0,
    PHYMode := "802.11ac", TxRate := 600, MCS := 9, NSS := 3, CountryCode := "CN",
    SupportedPHY := "802.11a/b/g/n/ac/ax" }

/-- One scanner iteration of the `system_profiler SPAirPortDataType`
parser of `getWiFiInfo` (variant B); the state is the
`inCurrentNetwork` flag plus the `WiFiInfo` being filled.  (Inside the
current-network section every line containing a colon is treated as a
network-name line; the key/value switch below it is only reachable for
colon-free lines, whose two-way split has a single part, so it never
fires — it is embedded nonetheless, mirroring the source.) -/
def wifiSectionStep (st : Bool × ModelB.WiFiInfo) (rawLine : String) :
    Bool × ModelB.WiFiInfo :=
  let line := goTrim rawLine
  let (inCurrentNetwork, w) := st
  if goContains line "Current Network Information:" then
    (true, { w with IsConnected := true })
  else if inCurrentNetwork ∧ (goContains line "Other Local Wi-Fi Networks:" ∨ line = "") then
    (false, w)
  else if goContains line "Supported PHY Modes:" then
    let parts := goSplitN2 line ":"
    (inCurrentNetwork,
      if parts.length = 2 then { w with SupportedPHY := goTrim (parts.getD 1 "") } else w)
  else if goContains line "Country Code:" then
    let parts := goSplitN2 line ":"
    (inCurrentNetwork,
      if parts.length = 2 then { w with CountryCode := goTrim (parts.getD 1 "") } else w)
  else if inCurrentNetwork then
    if goContains line ":" then
      let parts := goSplitN2 line ":"
      (inCurrentNetwork,
        if parts.length = 2 then { w with SSID := goTrim (parts.getD 0 "") } else w)
    else
      let parts := goSplitN2 line ":"
      if parts.length ≠ 2 then (inCurrentNetwork, w)
      else
        let key := goTrim (parts.getD 0 "")
        let value := goTrim (parts.getD 1 "")
        if key = "PHY Mode" then (inCurrentNetwork, { w with PHYMode := value })
        else if key = "Channel" then
          let channelParts := goSplit value " "
          if channelParts.length > 0 then
            let w := { w with Channel := (goAtoi (channelParts.getD 0 "")).getD 0 }
            let w :=
              if goContains value "5GHz" then { w with Frequency := 5.0 }
              else if goContains value "2GHz" then { w with Frequency := 2.4 }
              else w
            (inCurrentNetwork, w)
          else (inCurrentNetwork, w)
        else if key = "Signal / Noise" then
          let signalNoiseParts := goSplit value " / "
          if signalNoiseParts.length = 2 then
            let signalStr := goTrimSuf (signalNoiseParts.getD 0 "") " dBm"
            let noiseStr := goTrimSuf (signalNoiseParts.getD 1 "") " dBm"
            let w := { w with RSSI := (goAtoi signalStr).getD 0,
                              Noise := (goAtoi noiseStr).getD 0 }
            (inCurrentNetwork, { w with SignalStrength := w.RSSI })
          else (inCurrentNetwork, w)
        else if key = "Transmit Rate" then
          (inCurrentNetwork, { w with TxRate := (goAtoi value).getD 0 })
        else if key = "MCS Index" then
          (inCurrentNetwork, { w with MCS := (goAtoi value).getD 0 })
        else if key = "BSSID" then (inCurrentNetwork, { w with BSSID := value })
        else (inCurrentNetwork, w)
  else (inCurrentNetwork, w)

/-- `getWiFiInfo` from collector variant B: when
`system_profiler SPAirPortDataType` fails, store the hard-coded default
`WiFiInfo` and return nil; otherwise parse the output and apply the three
post-scan default adjustments. -/
def getWiFiInfoB (cmdResult : Option String) (info : ModelB.NetworkInfo) :
    ModelB.NetworkInfo × Option String :=
  match cmdResult with
  | none => ({ info with WiFi := kwaiDefaultWiFi }, none)
  | some output =>
    let w := ((goLines output).foldl wifiSectionStep (false, ModelB.WiFiInfo.zero)).2
    let w := if w.SSID = "" then { w with IsConnected := false } else w
    let w := if w.NSS = 0 then { w with NSS := 3 } else w
    let w := if w.SupportedPHY = "" then { w with SupportedPHY := "802.11a/b/g/n/ac/ax" } else w
    ({ info with WiFi := w }, none)

/-- The fixed ping-target list of `getNetworkLatency` (variant B). -/
def pingTargets : List (String × String) :=
  [("Google DNS", "8.8.8.8"), ("Cloudflare DNS", "1.1.1.1"), ("Baidu", "www.baidu.com")]

/-- A `([\d.]+)/([\d.]+)/([\d.]+)/([\d.]+)` match at the start of `l`
(each group greedy and non-empty); the captured groups are fed to
`strconv.ParseFloat` with the error ignored (yielding 0 on a malformed
group, as in the source). -/
def parseStatGroups (l : List Char) : Option (ℚ × ℚ × ℚ × ℚ) :=
  let isStat : Char → Bool := fun c => c.isDigit || c = '.'
  let g1 := l.takeWhile isStat
  let r1 := l.dropWhile isStat
  if g1 = [] then none else
  match r1 with
  | '/' :: r2 =>
    let g2 := r2.takeWhile isStat
    let r3 := r2.dropWhile isStat
    if g2 = [] then none else
    match r3 with
    | '/' :: r4 =>
      let g3 := r4.takeWhile isStat
      let r5 := r4.dropWhile isStat
      if g3 = [] then none else
      match r5 with
      | '/' :: r6 =>
        let g4 := r6.takeWhile isStat
        if g4 = [] then none
        else
          some ((goParseFloat ⟨g1⟩).getD 0, (goParseFloat ⟨g2⟩).getD 0,
                (goParseFloat ⟨g3⟩).getD 0, (goParseFloat ⟨g4⟩).getD 0)
      | _ => none
    | _ => none
  | _ => none

/-- `regexp.MustCompile(`min/avg/max/stddev = (…)/(…)/(…)/(…)`)
.FindStringSubmatch` over a `ping -c 5 -q` summary: the captures of the
leftmost occurrence of the literal followed by four slash-separated
`[\d.]+` groups. -/
def parsePingStats (output : String) : Option (ℚ × ℚ × ℚ × ℚ) :=
  firstSome (fun p => parseStatGroups p.data)
    ((goSplit output "min/avg/max/stddev = ").drop 1)

/-- Maximal trailing digit run of `s`. -/
def trailingDigits (s : String) : List Char :=
  (s.data.reverse.takeWhile Char.isDigit).reverse

/-- `regexp.MustCompile(`(\d+)% packet loss`).FindStringSubmatch`: the
digits immediately before the leftmost eligible occurrence of
`"% packet loss"`. -/
def parsePacketLoss (output : String) : Option ℚ :=
  firstSome
    (fun p =>
      let d := trailingDigits p
      if d = [] then none else some ((goParseFloat ⟨d⟩).getD 0))
    ((goSplit output "% packet loss").dropLast)

/-- The per-target ping loop of `getNetworkLatency` (variant B): targets
whose ping fails or whose summary does not match the latency regex are
skipped; matched targets contribute a `TargetLatencyInfo` whose jitter is
the standard deviation. -/
def buildPingTargets (ping : String → Option String) : List ModelB.TargetLatencyInfo :=
  pingTargets.foldl
    (fun acc target =>
      match ping target.2 with
      | none => acc
      | some output =>
        match parsePingStats output with
        | some stats =>
          let packetLoss := (parsePacketLoss output).getD 0
          acc ++ [{ TargetName := target.1, TargetHost := target.2,
                    MinLatency := stats.1, AvgLatency := stats.2.1,
                    MaxLatency := stats.2.2.1, PacketLoss := packetLoss,
                    StdDev := stats.2.2.2, Jitter := stats.2.2.2 }]
        | none => acc) []

/-- The `mtr -r -c 5 8.8.8.8` parser of `getNetworkLatency` (variant B):
skip two header lines, then turn every line with at least ten fields into
a hop entry (numeric parse failures yield 0). -/
def parseMtrHops (output : String) : List ModelB.NetworkHopInfo :=
  ((goLines output).drop 2).foldl
    (fun hops line =>
      let fields := goFields line
      if fields.length < 10 then hops
      else
        hops ++ [{ HopNum := (goAtoi (fields.getD 0 "")).getD 0,
                   Host := fields.getD 1 "",
                   Loss := (goParseFloat (goTrimSuf (fields.getD 2 "") "%")).getD 0,
                   SentPackets := (goAtoi (fields.getD 3 "")).getD 0,
                   LastLatency := (goParseFloat (fields.getD 4 "")).getD 0,
                   AvgLatency := (goParseFloat (fields.getD 5 "")).getD 0,
                   BestLatency := (goParseFloat (fields.getD 6 "")).getD 0,
                   WorstLatency := (goParseFloat (fields.getD 7 "")).getD 0,
                   StdDev := (goParseFloat (fields.getD 8 "")).getD 0 }]) []

/-- The `LatencyInfo` value assembled by `getNetworkLatency` (variant B)
from the ping-target parses and, when `mtr` succeeded, the hop parses. -/
def buildLatencyInfo (ping : String → Option String) (mtrResult : Option String) :
    ModelB.LatencyInfo :=
  let latencyInfo : ModelB.LatencyInfo :=
    { AvgLatency := 0, Targets := [], NetworkHops := [], Jitter := 0, PacketLoss := 0 }
  let latencyInfo := { latencyInfo with Targets := buildPingTargets ping }
  match mtrResult with
  | some mtrOutput => { latencyInfo with NetworkHops := parseMtrHops mtrOutput }
  | none => latencyInfo

/-- `getNetworkLatency` from collector variant B: build `latencyInfo`,
assign `info.Latency.AvgLatency = 10`, then assign the whole
`info.Latency = latencyInfo`; always returns nil. -/
def getNetworkLatency (ping : String → Option String) (mtrResult : Option String)
    (info : ModelB.NetworkInfo) : ModelB.NetworkInfo × Option String :=
  let latencyInfo := buildLatencyInfo ping mtrResult
  let info := { info with Latency := { info.Latency with AvgLatency := 10 } }
  ({ info with Latency := latencyInfo }, none)

/-!
## macOS aggregator (`internal/darwin/command.go`, `GetSystemInfo`)

Every external collaborator of `GetSystemInfo` — `host.Info`, `ghw`,
`gopsutil`, each `runCommand` invocation, and the three trailing
sub-collectors it calls — is an explicit field of `DarwinEnv` (`none` =
that call failed).  The three sub-collectors mutate the report and return
an error that `GetSystemInfo` only logs, so they are modelled as report
transformers paired with an optional error.
-/

/-- `host.Info()` as used by the aggregators. -/
structure HostInfoData where
  Hostname : String
  Platform : String
  PlatformVersion : String

/-- One `ghw` processor entry. -/
structure GhwProcessor where
  Model : String
  NumCores : Nat

/-- `ghw.CPU()` result. -/
structure GhwCPUInfo where
  Processors : List GhwProcessor

/-- `ghw` drive types distinguished by the disk loop. -/
inductive GhwDriveType where
  | hdd
  | ssd
  | other
deriving DecidableEq

/-- One `ghw.Block()` disk entry. -/
structure GhwDisk where
  Name : String
  SizeBytes : Nat
  SerialNumber : String
  Model : String
  IsRemovable : Bool
  DriveType : GhwDriveType

structure DarwinEnv where
  hostInfo : Option HostInfoData
  sysctlHwModel : Option String
  spHardwareOutput : Option String
  ioregPlatformOutput : Option String
  ghwCPUResult : Option GhwCPUInfo
  sysctlPhysicalCpu : Option String
  sysctlHwMachine : Option String
  sysctlPerflevel : Option String
  sysctlBrand : Option String
  memTotal : Option Nat
  spMemoryOutput : Option String
  ghwBlockResult : Option (List GhwDisk)
  spStorageOutput : Option String
  ioregUUIDOutput : Option String
  dynamicStep : Model.SystemInfo → Model.SystemInfo × Option String
  networkStep : Model.SystemInfo → Model.SystemInfo × Option String
  softwareStep : Model.SystemInfo → Model.SystemInfo × Option String

/-- `regexp.MustCompile(lit + `(.+)`).FindStringSubmatch`: the rest of the
line after the leftmost occurrence of `lit` that is followed by at least
one non-newline character. -/
def captureLine (text lit : String) : Option String :=
  firstSome
    (fun part =>
      let cap := (goSplit part "\n").getD 0 ""
      if cap = "" then none else some cap)
    ((goSplit text lit).drop 1)

/-- `regexp.MustCompile(lit + `([^"]+)"`).FindStringSubmatch`: the
non-empty run of non-quote characters after the leftmost occurrence of
`lit` that is closed by a quote. -/
def captureQuoted (text lit : String) : Option String :=
  firstSome
    (fun part =>
      let pieces := goSplit part "\""
      let seg := pieces.getD 0 ""
      if seg ≠ "" ∧ pieces.length > 1 then some seg else none)
    ((goSplit text lit).drop 1)

/-- The Apple Silicon detection shared by both CPU branches of
`GetSystemInfo`: `sysctl -n hw.machine` equal to `arm64` when that
command works, otherwise success of `sysctl -n hw.perflevel0.physicalcpu`. -/
def detectAppleSilicon (machineResult perflevelResult : Option String) : Bool :=
  match machineResult with
  | some archOutput => goTrim archOutput = "arm64"
  | none => perflevelResult.isSome

/-- The model-identifier → M-series inference table. -/
def inferFromMacID (modelID : String) : String :=
  if goContains modelID "14," ∨ goContains modelID "15," then "Apple M3"
  else if goContains modelID "13," then "Apple M2"
  else "Apple M1"

/-- The Pro/Max/Ultra suffixing applied to an Apple CPU model from the
model identifier. -/
def addAppleSuffixes (modelID cpuModel : String) : String :=
  if goContains modelID "Pro" then
    if ¬goContains cpuModel "Pro" then cpuModel ++ " Pro" else cpuModel
  else if goContains modelID "Max" then
    if ¬goContains cpuModel "Max" then cpuModel ++ " Max" else cpuModel
  else if goContains modelID "Ultra" then
    if ¬goContains cpuModel "Ultra" then cpuModel ++ " Ultra" else cpuModel
  else cpuModel

/-- The report assembled by the macOS `GetSystemInfo`
(`internal/darwin/command.go`), block by block in source order; every
failed call logs and leaves its fields untouched. -/
def darwinCollect (env : DarwinEnv) : Model.SystemInfo :=
  let info := Model.SystemInfo.zero
  let info :=
    match env.hostInfo with
    | some hostInfo =>
      { info with Hostname := hostInfo.Hostname,
                  OS := hostInfo.Platform ++ " " ++ hostInfo.PlatformVersion }
    | none => info
  let info :=
    match env.sysctlHwModel with
    | some modelName => { info with Model := goTrim modelName }
    | none => info
  let info :=
    match env.spHardwareOutput with
    | some marketingName =>
      match captureLine marketingName "Model Name: " with
      | some name => { info with ModelID := info.Model, Model := goTrim name }
      | none => info
    | none => info
  let info :=
    match env.ioregPlatformOutput with
    | some serialNumber =>
      match captureQuoted serialNumber "\"IOPlatformSerialNumber\" = \"" with
      | some sn => { info with SerialNumber := sn }
      | none => info
    | none => info
  let info :=
    match env.ghwCPUResult with
    | none =>
      let cores : Int :=
        match env.sysctlPhysicalCpu with
        | some coreCount => (goAtoi (goTrim coreCount)).getD 0
        | none => 0
      let isAppleSilicon := detectAppleSilicon env.sysctlHwMachine env.sysctlPerflevel
      let cpuModel :=
        if isAppleSilicon then
          let base :=
            match env.sysctlBrand with
            | some cpuModelOutput =>
              if goTrim cpuModelOutput = "" then
                if goContains info.ModelID "Mac" then inferFromMacID info.ModelID
                else "Apple Silicon"
              else goTrim cpuModelOutput
            | none =>
              if goContains info.ModelID "Mac" then inferFromMacID info.ModelID
              else "Apple Silicon"
          addAppleSuffixes info.ModelID base
        else
          match env.sysctlBrand with
          | some cpuModelOutput => goTrim cpuModelOutput
          | none => "Intel CPU"
      { info with CPU := ⟨cpuModel, cores⟩ }
    | some cpuInfo =>
      match cpuInfo.Processors with
      | [] => { info with CPU := ⟨"", 0⟩ }
      | proc :: _ =>
        let cpuModel := proc.Model
        let cores : Int := (proc.NumCores : Int)
        let isAppleSilicon := detectAppleSilicon env.sysctlHwMachine env.sysctlPerflevel
        let cpuModel :=
          if isAppleSilicon then
            let cpuModel :=
              if ¬(goContains cpuModel "M1" ∨ goContains cpuModel "M2" ∨
                   goContains cpuModel "M3") then
                if goContains info.ModelID "Mac" then inferFromMacID info.ModelID
                else cpuModel
              else cpuModel
            addAppleSuffixes info.ModelID cpuModel
          else cpuModel
        { info with CPU := ⟨cpuModel, cores⟩ }
  let info :=
    match env.memTotal with
    | some total =>
      let memType :=
        match env.spMemoryOutput with
        | some memTypeOutput =>
          if goContains memTypeOutput "Type: LPDDR5" then "LPDDR5"
          else if goContains memTypeOutput "Type: LPDDR4" then "LPDDR4"
          else if goContains memTypeOutput "Type: DDR4" then "DDR4"
          else "Unknown"
        | none => "Unknown"
      { info with Memory := ⟨total, memType⟩ }
    | none => info
  let info :=
    match env.ghwBlockResult with
    | some disks =>
      { info with Disks := info.Disks ++ disks.filterMap (fun disk =>
          if disk.IsRemovable ∨ (disk.DriveType ≠ .hdd ∧ disk.DriveType ≠ .ssd) then none
          else some ⟨disk.Name, disk.SizeBytes / (1024 * 1024 * 1024),
                     disk.SerialNumber, disk.Model⟩) }
    | none =>
      match env.spStorageOutput with
      | some diskInfo =>
        match captureLine diskInfo "Device Name: " with
        | some m =>
          let diskModel := goTrim m
          let diskName :=
            match captureLine diskInfo "BSD Name: " with
            | some b => goTrim b
            | none => "Unknown"
          { info with Disks := info.Disks ++ [⟨diskName, 494, "", diskModel⟩] }
        | none => info
      | none => info
  let info :=
    match env.ioregUUIDOutput with
    | some uuidOutput =>
      match captureQuoted uuidOutput "\"IOPlatformUUID\" = \"" with
      | some uuid => { info with UUID := uuid }
      | none => info
    | none => info
  let info := (env.dynamicStep info).1
  let info := (env.networkStep info).1
  (env.softwareStep info).1

/-- `darwin.GetSystemInfo`: the single `return info, nil` at the end of
the function body is the only return statement; every failure before it is
logged and swallowed. -/
def darwinGetSystemInfo (env : DarwinEnv) : Model.SystemInfo × Option String :=
  (darwinCollect env, none)

/-!
## Windows aggregator (`GetSystemInfo`, `GetAllSystemInfo`)
-/

structure Win32ComputerSystem where
  Model : String
  Name : String
  TotalPhysicalMemory : Nat

structure Win32Processor where
  Name : String
  NumberOfCores : Nat

structure Win32BIOS where
  SerialNumber : String

structure Win32PhysicalMemory where
  Capacity : Nat
  MemoryType : Nat

structure Win32DiskDrive where
  Caption : String
  Model : String
  Size : String
  SerialNumber : String

structure Win32ComputerSystemProduct where
  UUID : String

/-- The anonymous aliased-column row of the fallback processor query. -/
structure AltProcessorRow where
  ProcessorName : String
  CoreCount : Nat

/-- The anonymous aliased-column row of the fallback disk query. -/
structure AltDiskRow where
  DiskName : String
  DiskModel : String
  DiskSize : String
  DiskSerial : String

structure WindowsEnv where
  hostInfo : Option HostInfoData
  computerSystems : Option (List Win32ComputerSystem)
  biosInfo : Option (List Win32BIOS)
  processors : Option (List Win32Processor)
  altProcessors : Option (List AltProcessorRow)
  physicalMemory : Option (List Win32PhysicalMemory)
  memTotal : Option Nat
  diskDrives : Option (List Win32DiskDrive)
  altDiskDrives : Option (List AltDiskRow)
  systemProducts : Option (List Win32ComputerSystemProduct)

/-- The WMI memory-type-code table of `getMemoryTypeString`. -/
def memoryTypeName (code : Nat) : Option String :=
  match code with
  | 0 => some "Unknown"
  | 1 => some "Other"
  | 2 => some "DRAM"
  | 3 => some "Synchronous DRAM"
  | 4 => some "Cache DRAM"
  | 5 => some "EDO"
  | 6 => some "EDRAM"
  | 7 => some "VRAM"
  | 8 => some "SRAM"
  | 9 => some "RAM"
  | 10 => some "ROM"
  | 11 => some "Flash"
  | 12 => some "EEPROM"
  | 13 => some "FEPROM"
  | 14 => some "EPROM"
  | 15 => some "CDRAM"
  | 16 => some "3DRAM"
  | 17 => some "SDRAM"
  | 18 => some "SGRAM"
  | 19 => some "RDRAM"
  | 20 => some "DDR"
  | 21 => some "DDR2"
  | 22 => some "DDR2 FB-DIMM"
  | 24 => some "DDR3"
  | 25 => some "FBD2"
  | 26 => some "DDR4"
  | 27 => some "LPDDR"
  | 28 => some "LPDDR2"
  | 29 => some "LPDDR3"
  | 30 => some "LPDDR4"
  | 31 => some "LPDDR5"
  | _ => none

/-- `getMemoryTypeString`: type string of the first memory module,
`"Unknown"` when there is none, `"Unknown (<code>)"` for an unlisted
code. -/
def getMemoryTypeString (memoryModules : List Win32PhysicalMemory) : String :=
  match memoryModules with
  | [] => "Unknown"
  | m :: _ =>
    match memoryTypeName m.MemoryType with
    | some typeStr => typeStr
    | none => "Unknown (" ++ toString m.MemoryType ++ ")"

/-- The report assembled by the Windows `GetSystemInfo`: a fixed sequence
of WMI queries (with aliased-column fallbacks for CPU and disks), each
failure logged and skipped. -/
def windowsCollect (env : WindowsEnv) : Model.SystemInfo :=
  let info := Model.SystemInfo.zero
  let info :=
    match env.hostInfo with
    | some hostInfo =>
      { info with Hostname := hostInfo.Hostname,
                  OS := hostInfo.Platform ++ " " ++ hostInfo.PlatformVersion }
    | none => info
  let info :=
    match env.computerSystems with
    | some (cs :: _) => { info with Model := cs.Model }
    | _ => info
  let info :=
    match env.biosInfo with
    | some (bios :: _) => { info with SerialNumber := bios.SerialNumber }
    | _ => info
  let info :=
    match env.processors with
    | some (p :: _) => { info with CPU := ⟨p.Name, (p.NumberOfCores : Int)⟩ }
    | _ =>
      match env.altProcessors with
      | some (p :: _) => { info with CPU := ⟨p.ProcessorName, (p.CoreCount : Int)⟩ }
      | _ => { info with CPU := ⟨"Unknown CPU", 0⟩ }
  let memoryModules := env.physicalMemory.getD []
  let info :=
    match env.memTotal with
    | some total =>
      { info with Memory := ⟨total, getMemoryTypeString memoryModules⟩ }
    | none => info
  let info :=
    match env.diskDrives with
    | some diskDrives =>
      { info with Disks := info.Disks ++ diskDrives.map (fun d =>
          ⟨d.Caption, ((goParseUint d.Size).getD 0) / (1024 * 1024 * 1024),
           d.SerialNumber, d.Model⟩) }
    | none =>
      match env.altDiskDrives with
      | some altDiskDrives =>
        { info with Disks := info.Disks ++ altDiskDrives.map (fun d =>
            ⟨d.DiskName, ((goParseUint d.DiskSize).getD 0) / (1024 * 1024 * 1024),
             d.DiskSerial, d.DiskModel⟩) }
      | none => info
  match env.systemProducts with
  | some (sp :: _) => { info with UUID := sp.UUID }
  | _ => info

/-- `windows.GetSystemInfo`: like the macOS variant, its only return
statement is the trailing `return info, nil`. -/
def windowsGetSystemInfo (env : WindowsEnv) : Model.SystemInfo × Option String :=
  (windowsCollect env, none)

/-- `windows.GetAllSystemInfo`, as a function of the three inner results:
an inner `GetSystemInfo` error is returned as is; network and dynamic
results are merged only when error-free; the final return carries a nil
error. -/
def GetAllSystemInfo (sysResult : Model.SystemInfo × Option String)
    (netResult : Model.NetworkInfo × Option String)
    (dynResult : Model.SystemInfo × Option String) : Model.SystemInfo × Option String :=
  match sysResult.2 with
  | some e => (sysResult.1, some e)
  | none =>
    let sysInfo := sysResult.1
    let sysInfo :=
      match netResult.2 with
      | none => { sysInfo with Network := netResult.1 }
      | some _ => sysInfo
    let sysInfo :=
      match dynResult.2 with
      | none =>
        { sysInfo with DiskUsage := dynResult.1.DiskUsage,
                       MemoryUsage := dynResult.1.MemoryUsage,
                       Battery := dynResult.1.Battery,
                       ACAdapter := dynResult.1.ACAdapter,
                       Bluetooth := dynResult.1.Bluetooth,
                       Temperature := dynResult.1.Temperature,
                       InstalledApps := dynResult.1.InstalledApps,
                       RunningApps := dynResult.1.RunningApps,
                       UpTime := dynResult.1.UpTime }
      | some _ => sysInfo
    (sysInfo, none)

/-!
## Presentation layer and the two entry points

`formatSystemInfo` exists in two variants (the `cmd/sysinfo` one and the
one shipped with the keypress-waiting main).  The only list indexing in
either, `info.Disks[0]`, sits under a `len(info.Disks) > 0` guard; the
embedding returns `Option String`, with `none` standing for the run-time
panic an unguarded out-of-bounds index would raise, and the totality
theorem shows `none` is never produced. -/

/-- `formatSystemInfo` from `cmd/sysinfo/main.go` (`runtime.GOOS` is the
`goos` argument). -/
def formatSystemInfo (goos : String) (info : Model.SystemInfo) : Option String :=
  let osType := if goos = "windows" then "Windows" else "Mac"
  let s := "静态信息：\n"
  let s := s ++ "1. 计算机名（系统）：" ++ info.Hostname ++ "（" ++ osType ++ "）\n"
  let s := if info.Model ≠ "" then s ++ "2. 型号名称：" ++ info.Model ++ "\n" else s
  let s := if info.Model ≠ "" then s ++ "3. 型号标识符：" ++ info.Model ++ "\n" else s ++ "\n"
  let s := s ++ "4. SN： " ++ info.SerialNumber ++ "\n"
  let cpuDesc := info.CPU.Model
  let cpuDesc :=
    if info.CPU.Cores > 0 then
      if goContains (goToLower cpuDesc) "intel" then
        toString info.CPU.Cores ++ "核" ++ cpuDesc
      else cpuDesc ++ " " ++ toString info.CPU.Cores
    else cpuDesc
  let s := s ++ "5. 处理器名称：" ++ cpuDesc ++ "\n"
  let s := s ++ "6. 硬件UUID: " ++ info.UUID ++ "\n"
  let diskLine : Option String :=
    if info.Disks.length > 0 then
      match info.Disks.head? with
      | some disk =>
        let diskDesc := if disk.Model = "" then disk.Name else disk.Model
        some ("7. 磁盘: " ++ diskDesc ++ "\n")
      | none => none
    else some "7. 磁盘: 未知\n"
  match diskLine with
  | none => none
  | some d => some (s ++ d ++ "8. CPU: " ++ info.CPU.Model ++ "\n")

/-- The `formatSystemInfo` variant shipped with the keypress-waiting main
(item 3 prefers `ModelID` and falls back to `未知`; non-Intel CPUs are
rendered as `model (N核)`). -/
def formatSystemInfoB (goos : String) (info : Model.SystemInfo) : Option String :=
  let osType := if goos = "windows" then "Windows" else "Mac"
  let s := "静态信息：\n"
  let s := s ++ "1. 计算机名（系统）：" ++ info.Hostname ++ "（" ++ osType ++ "）\n"
  let s := if info.Model ≠ "" then s ++ "2. 型号名称：" ++ info.Model ++ "\n" else s
  let s :=
    if info.ModelID ≠ "" then s ++ "3. 型号标识符：" ++ info.ModelID ++ "\n"
    else if info.Model ≠ "" then s ++ "3. 型号标识符：" ++ info.Model ++ "\n"
    else s ++ "3. 型号标识符：未知\n"
  let s := s ++ "4. SN： " ++ info.SerialNumber ++ "\n"
  let cpuDesc := info.CPU.Model
  let cpuDesc :=
    if info.CPU.Cores > 0 then
      if goContains (goToLower cpuDesc) "intel" then
        toString info.CPU.Cores ++ "核" ++ cpuDesc
      else if goContains cpuDesc "Apple" then
        cpuDesc ++ " (" ++ toString info.CPU.Cores ++ "核)"
      else cpuDesc ++ " (" ++ toString info.CPU.Cores ++ "核)"
    else cpuDesc
  let s := s ++ "5. 处理器名称：" ++ cpuDesc ++ "\n"
  let s := s ++ "6. 硬件UUID: " ++ info.UUID ++ "\n"
  let diskLine : Option String :=
    if info.Disks.length > 0 then
      match info.Disks.head? with
      | some disk =>
        let diskDesc := if disk.Model = "" then disk.Name else disk.Model
        some ("7. 磁盘: " ++ diskDesc ++ "\n")
      | none => none
    else some "7. 磁盘: 未知\n"
  match diskLine with
  | none => none
  | some d => some (s ++ d ++ "8. CPU: " ++ info.CPU.Model ++ "\n")

/-- The environment a `main` runs in: the detected `runtime.GOOS`, the
`os.Args` vector, the collector environments, and the outcome of
`os.WriteFile` for a given name and content (`some e` = write error). -/
structure MainEnv where
  goos : String
  args : List String
  darwin : DarwinEnv
  windows : WindowsEnv
  writeFile : String → String → Option String

/-- The `--save` arm shared by both mains: argument handling, rendering,
and the file write; exit code 1 on a write failure (`log.Fatalf`).  The
`none` arm of the renderer stands for a rendering panic (exit code 2,
proved unreachable).  Returns `(exitCode, waitedForKeypress)`. -/
def mainSaveArm (env : MainEnv) (render : String → Model.SystemInfo → Option String)
    (info : Model.SystemInfo) (waited : Bool) : Nat × Bool :=
  if env.args.length > 1 ∧ env.args.getD 1 "" = "--save" then
    match render env.goos info with
    | none => (2, false)
    | some output =>
      match env.writeFile (if env.args.length > 2 then env.args.getD 2 "" else "sysinfo.txt")
        output with
      | some _ => (1, false)
      | none => (0, waited)
  else (0, waited)

/-- `main` from `cmd/sysinfo/main.go`: fatal on an unsupported OS, fatal
on a collector error (a branch that is dead because both collectors
always return nil), print, optionally save (fatal on write error), and
exit; it never waits for a keypress. -/
def mainCmd (env : MainEnv) : Nat × Bool :=
  if env.goos = "windows" then
    match windowsGetSystemInfo env.windows with
    | (_, some _) => (1, false)
    | (sysInfo, none) => mainSaveArm env formatSystemInfo sysInfo false
  else if env.goos = "darwin" then
    match darwinGetSystemInfo env.darwin with
    | (_, some _) => (1, false)
    | (sysInfo, none) => mainSaveArm env formatSystemInfo sysInfo false
  else (1, false)

/-- The keypress-waiting `main` variant: a Windows collector error merely
prints a notice and continues; a macOS collector error is fatal (also a
dead branch); after the optional save, a Windows run waits for Enter
before exiting.  (Its `printSystemInfo` only writes to standard output;
the JSON dump it can append cannot fail on this report type, so printing
is modelled as having no effect on the exit.) -/
def mainB (env : MainEnv) : Nat × Bool :=
  if env.goos = "windows" then
    match windowsGetSystemInfo env.windows with
    | (sysInfo, some _) => mainSaveArm env formatSystemInfoB sysInfo true
    | (sysInfo, none) => mainSaveArm env formatSystemInfoB sysInfo true
  else if env.goos = "darwin" then
    match darwinGetSystemInfo env.darwin with
    | (_, some _) => (1, false)
    | (sysInfo, none) => mainSaveArm env formatSystemInfoB sysInfo false
  else (1, false)

/-!
## Concrete fixtures used by witnesses and counterexamples
-/

/-- A synthetic `netstat -I en0 -b` sample: header plus one interface line
with 1000 in-bytes (field 6) and 2000 out-bytes (field 9). -/
def netstatSample1 : String :=
  "Name Mtu Net Address Ipkts Ierrs Ibytes Opkts Oerrs Obytes\n" ++
  "en0 1500 192.168.1 192.168.1.5 1 0 1000 2 0 2000"

/-- The same interface 1 second later: 10240 more in-bytes and 5120 more
out-bytes. -/
def netstatSample2 : String :=
  "Name Mtu Net Address Ipkts Ierrs Ibytes Opkts Oerrs Obytes\n" ++
  "en0 1500 192.168.1 192.168.1.5 3 0 11240 5 0 7120"

/-- An `airport -I` style fixture with the claim's SSID and RSSI lines. -/
def airportFixture : String :=
  "     agrCtlRSSI: -55\n           SSID: TestNet"

/-- An `airport -I` style output that contains a line with
`" SSID: TestNet"` and a line with `"agrCtlRSSI: -55"`, but also a second
SSID line that the scanner processes afterwards. -/
def airportConflicting : String :=
  " SSID: TestNet\n SSID: Evil\nagrCtlRSSI: -55"

/-- An `ifconfig -a` output containing no `inet ` and no `ether `
occurrence at all (a host with only a loopback stanza). -/
def ifconfigNoAddr : String :=
  "lo0: flags=8049<UP,LOOPBACK,RUNNING,MULTICAST> mtu 16384\n" ++
  "\tnd6 options=201<PERFORMNUD,DAD>"

/-- A fetch in which every API answers 200 with the body `"a.b.c.d"` —
three dots, but not a dotted-quad IP. -/
def dotFetch : String → Option HTTPResponse :=
  fun _ => some ⟨200, some "a.b.c.d"⟩

/-- A macOS collector environment in which every external call failed. -/
def zeroDarwinEnv : DarwinEnv where
  hostInfo := none
  sysctlHwModel := none
  spHardwareOutput := none
  ioregPlatformOutput := none
  ghwCPUResult := none
  sysctlPhysicalCpu := none
  sysctlHwMachine := none
  sysctlPerflevel := none
  sysctlBrand := none
  memTotal := none
  spMemoryOutput := none
  ghwBlockResult := none
  spStorageOutput := none
  ioregUUIDOutput := none
  dynamicStep := fun info => (info, none)
  networkStep := fun info => (info, none)
  softwareStep := fun info => (info, none)

/-- A Windows collector environment in which every query failed. -/
def zeroWindowsEnv : WindowsEnv where
  hostInfo := none
  computerSystems := none
  biosInfo := none
  processors := none
  altProcessors := none
  physicalMemory := none
  memTotal := none
  diskDrives := none
  altDiskDrives := none
  systemProducts := none

/-- A Windows run with no `--save` flag and a writable filesystem. -/
def envWinNoSave : MainEnv where
  goos := "windows"
  args := ["sysinfo"]
  darwin := zeroDarwinEnv
  windows := zeroWindowsEnv
  writeFile := fun _ _ => none

/-- A Windows run invoked as `sysinfo --save out.txt` on which the file
write fails. -/
def envWinSaveFail : MainEnv where
  goos := "windows"
  args := ["sysinfo", "--save", "out.txt"]
  darwin := zeroDarwinEnv
  windows := zeroWindowsEnv
  writeFile := fun _ _ => some "permission denied"

/-- `len(os.Args) > 1 && os.Args[1] == "--save"`. -/
def saveRequested (env : MainEnv) : Prop :=
  env.args.length > 1 ∧ env.args.getD 1 "" = "--save"

instance (env : MainEnv) : Decidable (saveRequested env) := by
  unfold saveRequested; infer_instance

/-- The output-file argument handling of both mains. -/
def savePath (env : MainEnv) : String :=
  if env.args.length > 2 then env.args.getD 2 "" else "sysinfo.txt"

/-- The report collected by either main for the detected OS (for an
unsupported OS the mains exit before collecting; the value is unused
there). -/
def collectedInfo (env : MainEnv) : Model.SystemInfo :=
  if env.goos = "windows" then (windowsGetSystemInfo env.windows).1
  else (darwinGetSystemInfo env.darwin).1

/-!
## Helper lemmas
-/

/-- Splitting the combined in+out accumulation of `parseNetstatOutput`
into its two halves. -/
theorem netstatFoldSplit (M : List String) (a b : Int) :
    M.foldl (fun acc line =>
      let fields := goFields line
      if fields.length ≥ 10 then
        acc + (goAtoi (fields.getD 6 "")).getD 0 + (goAtoi (fields.getD 9 "")).getD 0
      else acc) (a + b)
    = M.foldl (fun acc line =>
        let fields := goFields line
        if fields.length ≥ 10 then acc + (goAtoi (fields.getD 6 "")).getD 0 else acc) a
      + M.foldl (fun acc line =>
          let fields := goFields line
          if fields.length ≥ 10 then acc + (goAtoi (fields.getD 9 "")).getD 0 else acc) b := by
  induction M generalizing a b with
  | nil => simp
  | cons l M ih =>
    simp only [List.foldl]
    by_cases hc : (goFields l).length ≥ 10
    · simp only [hc, if_true]
      rw [show a + b + (goAtoi ((goFields l).getD 6 "")).getD 0 +
            (goAtoi ((goFields l).getD 9 "")).getD 0
          = (a + (goAtoi ((goFields l).getD 6 "")).getD 0) +
            (b + (goAtoi ((goFields l).getD 9 "")).getD 0) from by ring]
      exact ih _ _
    · simp only [hc, if_false]
      exact ih a b

/-- `parseNetstatOutput` is the sum of its in-byte and out-byte halves. -/
theorem parseNetstat_split (output : String) :
    parseNetstatOutput output = parseNetstatInBytes output + parseNetstatOutBytes output := by
  unfold parseNetstatOutput parseNetstatInBytes parseNetstatOutBytes
  by_cases h : (goSplit output "\n").length < 2
  · simp [h]
  · simp only [h, if_false]
    have := netstatFoldSplit ((goSplit output "\n").drop 1) 0 0
    simpa using this

/-- A property preserved by every step of a fold survives the fold. -/
theorem foldlPreserve {σ α : Type} (f : σ → α → σ) (P : σ → Prop) :
    ∀ (L : List α), (∀ s a, a ∈ L → P s → P (f s a)) → ∀ s, P s → P (L.foldl f s) := by
  intro L
  induction L with
  | nil => intro _ s hs; simpa using hs
  | cons a L ih =>
    intro hpres s hs
    simp only [List.foldl]
    exact ih (fun t b hb => hpres t b (List.mem_cons_of_mem _ hb)) _
      (hpres s a (List.mem_cons_self _ _) hs)

/-- A property established by some step of a fold and preserved by every
step holds after the fold. -/
theorem foldlEstablish {σ α : Type} (f : σ → α → σ) (P : σ → Prop) :
    ∀ (L : List α), (∀ s a, a ∈ L → P s → P (f s a)) → (∃ a ∈ L, ∀ s, P (f s a)) →
      ∀ s, P (L.foldl f s) := by
  intro L
  induction L with
  | nil =>
    intro _ hest s
    rcases hest with ⟨a, ha, -⟩
    exact absurd ha (List.not_mem_nil a)
  | cons a L ih =>
    intro hpres hest s
    rcases hest with ⟨b, hb, hPb⟩
    rcases List.mem_cons.mp hb with hba | hbL
    · subst hba
      simp only [List.foldl]
      exact foldlPreserve f P L (fun t c hc => hpres t c (List.mem_cons_of_mem _ hc)) _ (hPb s)
    · simp only [List.foldl]
      exact ih (fun t c hc => hpres t c (List.mem_cons_of_mem _ hc)) ⟨b, hbL, hPb⟩ (f s a)

/-!
## Claims
-/

/-- C10: after every run of `getNetworkLatency` (variant B) the report's
`Latency` section equals exactly the structure assembled from the
ping-target and mtr parses; the preceding
`info.Latency.AvgLatency = 10` assignment is immediately overwritten by
the whole-struct assignment, so `Latency.AvgLatency` is always its zero
value 0 and never 10 (and the function returns a nil error on every
path). -/
theorem getNetworkLatency_overwrites_avg :
    ∀ (ping : String → Option String) (mtrResult : Option String) (info : ModelB.NetworkInfo),
      (getNetworkLatency ping mtrResult info).1.Latency = buildLatencyInfo ping mtrResult ∧
      (getNetworkLatency ping mtrResult info).1.Latency.AvgLatency = 0 ∧
      (getNetworkLatency ping mtrResult info).1.Latency.AvgLatency ≠ 10 ∧
      (getNetworkLatency ping mtrResult info).2 = none := by
  intro ping mtrResult info
  have havg : (buildLatencyInfo ping mtrResult).AvgLatency = 0 := by
    cases mtrResult <;> rfl
  refine ⟨rfl, ?_, ?_, rfl⟩
  · exact havg
  · show (buildLatencyInfo ping mtrResult).AvgLatency ≠ 10
    rw [havg]
    norm_num

/-- Witness for C10 at concrete inputs (every ping and the mtr failing). -/
theorem getNetworkLatency_overwrites_avg_witness :
    (getNetworkLatency (fun _ => none) none ModelB.NetworkInfo.zero).1.Latency.AvgLatency = 0 ∧
    (getNetworkLatency (fun _ => none) none ModelB.NetworkInfo.zero).2 = none :=
  ⟨(getNetworkLatency_overwrites_avg (fun _ => none) none ModelB.NetworkInfo.zero).2.1,
   (getNetworkLatency_overwrites_avg (fun _ => none) none ModelB.NetworkInfo.zero).2.2.2⟩

/-- C9: `darwin.GetSystemInfo` returns a nil error on every execution
path, and `windows.GetAllSystemInfo` returns a nil error whenever the
inner `GetSystemInfo` does — so a caller cannot distinguish a fully
failed collection from a successful one by the returned error. -/
theorem collectors_never_fail :
    (∀ env : DarwinEnv, (darwinGetSystemInfo env).2 = none) ∧
    (∀ (sysResult : Model.SystemInfo × Option String)
       (netResult : Model.NetworkInfo × Option String)
       (dynResult : Model.SystemInfo × Option String),
      sysResult.2 = none → (GetAllSystemInfo sysResult netResult dynResult).2 = none) := by
  constructor
  · intro env; rfl
  · intro sysResult netResult dynResult hsys
    obtain ⟨sysInfo, e⟩ := sysResult
    simp only at hsys
    subst hsys
    unfold GetAllSystemInfo
    cases netResult.2 <;> cases dynResult.2 <;> rfl

/-- Witness for C9 at concrete inputs. -/
theorem collectors_never_fail_witness :
    (darwinGetSystemInfo zeroDarwinEnv).2 = none ∧
    (GetAllSystemInfo (Model.SystemInfo.zero, none) (Model.NetworkInfo.zero, none)
      (Model.SystemInfo.zero, none)).2 = none :=
  ⟨collectors_never_fail.1 zeroDarwinEnv,
   collectors_never_fail.2 (Model.SystemInfo.zero, none) (Model.NetworkInfo.zero, none)
     (Model.SystemInfo.zero, none) rfl⟩

/-- C6: the WMI path of the Windows battery collector maps
`BatteryStatus` through the fixed enumeration — 1 ↦ Discharging (not
charging), 2 ↦ Charging (charging), 3 ↦ Fully Charged (not charging),
anything else ↦ Unknown (not charging) — and `IsCharging` is true exactly
when the status code is 2. -/
theorem getBatteryInfo_status_mapping :
    ∀ b : Win32Battery,
      (b.BatteryStatus = 1 → (getBatteryInfoFromWMI b).Status = "Discharging" ∧
        (getBatteryInfoFromWMI b).IsCharging = false) ∧
      (b.BatteryStatus = 2 → (getBatteryInfoFromWMI b).Status = "Charging" ∧
        (getBatteryInfoFromWMI b).IsCharging = true) ∧
      (b.BatteryStatus = 3 → (getBatteryInfoFromWMI b).Status = "Fully Charged" ∧
        (getBatteryInfoFromWMI b).IsCharging = false) ∧
      (b.BatteryStatus ≠ 1 → b.BatteryStatus ≠ 2 → b.BatteryStatus ≠ 3 →
        (getBatteryInfoFromWMI b).Status = "Unknown" ∧
        (getBatteryInfoFromWMI b).IsCharging = false) ∧
      ((getBatteryInfoFromWMI b).IsCharging = true ↔ b.BatteryStatus = 2) := by
  intro b
  unfold getBatteryInfoFromWMI
  by_cases h1 : b.BatteryStatus = 1 <;> by_cases h2 : b.BatteryStatus = 2 <;>
    by_cases h3 : b.BatteryStatus = 3 <;> simp_all

/-- Witness for C6 at the status codes 2, 1 and 7. -/
theorem getBatteryInfo_status_mapping_witness :
    (getBatteryInfoFromWMI ⟨2, 80, 0, 0, "BAT1"⟩).IsCharging = true ∧
    (getBatteryInfoFromWMI ⟨1, 80, 0, 0, "BAT1"⟩).Status = "Discharging" ∧
    (getBatteryInfoFromWMI ⟨7, 80, 0, 0, "BAT1"⟩).Status = "Unknown" :=
  ⟨((getBatteryInfo_status_mapping ⟨2, 80, 0, 0, "BAT1"⟩).2.1 rfl).2,
   ((getBatteryInfo_status_mapping ⟨1, 80, 0, 0, "BAT1"⟩).1 rfl).1,
   ((getBatteryInfo_status_mapping ⟨7, 80, 0, 0, "BAT1"⟩).2.2.2.1 (by decide) (by decide)
     (by decide)).1⟩

/-- C1 (code versus spec): on the failure paths the variant-B collectors
do not leave their fields empty — when the WiFi tool fails, `getWiFiInfo`
stores the fabricated default network (SSID `"Kwai"`, RSSI −56, …) and
returns nil, and when no address is found in the `ifconfig` output,
`getIPAndMacAddress` stores the hard-coded `"172.22.23.5"` /
`"aa:bb:cc:dd:ee:ff"` defaults. -/
theorem variantB_failure_defaults :
    (getWiFiInfoB none ModelB.NetworkInfo.zero).1.WiFi.SSID = "Kwai" ∧
    (getWiFiInfoB none ModelB.NetworkInfo.zero).1.WiFi.RSSI = -56 ∧
    (getWiFiInfoB none ModelB.NetworkInfo.zero).1.WiFi.IsConnected = true ∧
    (getWiFiInfoB none ModelB.NetworkInfo.zero).2 = none ∧
    (getIPAndMacAddress (some ifconfigNoAddr) ModelB.NetworkInfo.zero).1.IP = "172.22.23.5" ∧
    (getIPAndMacAddress (some ifconfigNoAddr) ModelB.NetworkInfo.zero).1.MacAddress =
      "aa:bb:cc:dd:ee:ff" ∧
    (getIPAndMacAddress (some ifconfigNoAddr) ModelB.NetworkInfo.zero).2 = none := by
  refine ⟨rfl, rfl, rfl, rfl, ?_, ?_, ?_⟩ <;> decide

/-- C3: for two traffic samples whose parsed per-interface byte totals
differ by 10240 bytes in and 5120 bytes out, `getNetworkTraffic`
(variant B) renders exactly `"15.00 KB/s"` into both traffic fields. -/
theorem getNetworkTraffic_fifteen :
    ∀ (sample1 sample2 : String) (info : ModelB.NetworkInfo),
      parseNetstatInBytes sample2 = parseNetstatInBytes sample1 + 10240 →
      parseNetstatOutBytes sample2 = parseNetstatOutBytes sample1 + 5120 →
      (getNetworkTraffic (some sample1) (some sample2) info).1.NetworkTraffic = "15.00 KB/s" ∧
      (getNetworkTraffic (some sample1) (some sample2) info).1.ProcessTraffic = "15.00 KB/s" := by
  intro sample1 sample2 info hin hout
  have hdelta : parseNetstatOutput sample2 - parseNetstatOutput sample1 = 15360 := by
    rw [parseNetstat_split, parseNetstat_split, hin, hout]
    ring
  have hfmt : fmtKBps (parseNetstatOutput sample2 - parseNetstatOutput sample1) =
      "15.00 KB/s" := by
    rw [hdelta]; decide
  unfold getNetworkTraffic
  constructor
  · show fmtKBps (parseNetstatOutput sample2 - parseNetstatOutput sample1) = "15.00 KB/s"
    exact hfmt
  · show fmtKBps (parseNetstatOutput sample2 - parseNetstatOutput sample1) = "15.00 KB/s"
    exact hfmt

/-- Witness for C3 at the synthetic samples (in-delta 10240, out-delta
5120). -/
theorem getNetworkTraffic_fifteen_witness :
    parseNetstatInBytes netstatSample2 = parseNetstatInBytes netstatSample1 + 10240 ∧
    parseNetstatOutBytes netstatSample2 = parseNetstatOutBytes netstatSample1 + 5120 ∧
    (getNetworkTraffic (some netstatSample1) (some netstatSample2)
      ModelB.NetworkInfo.zero).1.NetworkTraffic = "15.00 KB/s" :=
  ⟨by decide, by decide,
   (getNetworkTraffic_fifteen netstatSample1 netstatSample2 ModelB.NetworkInfo.zero
     (by decide) (by decide)).1⟩

/-- The CPU/zero tier always yields a non-empty list. -/
theorem cpuTierTemps_ne_nil (cpuResult : Option (List ℚ)) : cpuTierTemps cpuResult ≠ [] := by
  cases cpuResult with
  | none => simp [cpuTierTemps]
  | some cpuPercent =>
    by_cases h : cpuPercent.isEmpty <;> simp [cpuTierTemps, h]

/-- C5: the Windows `getTemperatureInfo` tries its sources in a fixed
order — OpenHardwareMonitor, then the WMI temperature-sensor class, then
the CPU-utilization estimate `30.0 + cpuPercent[0] * 0.6`, and finally
two zero-valued sensors — where each later tier is used only when every
earlier tier produced no data; it always returns a non-empty sensor list
with a nil error. -/
theorem getTemperatureInfo_tiers :
    ∀ (ohmResult : Option String) (wmiResult : Option (List Win32TemperatureSensor))
      (cpuResult : Option (List ℚ)),
      (getTemperatureInfo ohmResult wmiResult cpuResult).2 = none ∧
      (getTemperatureInfo ohmResult wmiResult cpuResult).1 ≠ [] ∧
      (ohmTemps ohmResult ≠ [] →
        (getTemperatureInfo ohmResult wmiResult cpuResult).1 = ohmTemps ohmResult) ∧
      (ohmTemps ohmResult = [] → ∀ sensors, wmiResult = some sensors → sensors ≠ [] →
        (getTemperatureInfo ohmResult wmiResult cpuResult).1 = sensors.map wmiSensorToTemp) ∧
      (ohmTemps ohmResult = [] → wmiHasData wmiResult = false →
        ∀ cpuPercent, cpuResult = some cpuPercent → cpuPercent ≠ [] →
        (getTemperatureInfo ohmResult wmiResult cpuResult).1 =
          [⟨"CPU", 30 + cpuPercent.headD 0 * 0.6, "Processor", "", 0⟩,
           ⟨"GPU", 0, "Graphics", "", 0⟩]) ∧
      (ohmTemps ohmResult = [] → wmiHasData wmiResult = false → cpuHasData cpuResult = false →
        (getTemperatureInfo ohmResult wmiResult cpuResult).1 =
          [⟨"CPU", 0, "Processor", "", 0⟩, ⟨"GPU", 0, "Graphics", "", 0⟩]) := by
  intro ohmResult wmiResult cpuResult
  by_cases hohm : (ohmTemps ohmResult).length > 0
  · have hne : ohmTemps ohmResult ≠ [] := by
      intro h; rw [h] at hohm; simp at hohm
    have hmain : getTemperatureInfo ohmResult wmiResult cpuResult =
        (ohmTemps ohmResult, none) := by
      unfold getTemperatureInfo; rw [if_pos hohm]
    exact ⟨by rw [hmain], by rw [hmain]; exact hne, fun _ => by rw [hmain],
      fun h => absurd h hne, fun h => absurd h hne, fun h => absurd h hne⟩
  · have h0 : ohmTemps ohmResult = [] := by
      rcases Nat.eq_zero_or_pos (ohmTemps ohmResult).length with h | h
      · exact List.length_eq_zero.mp h
      · exact absurd h hohm
    cases wmiResult with
    | some sensors =>
      by_cases hlen : sensors.length > 0
      · have hsne : sensors ≠ [] := by
          intro h; rw [h] at hlen; simp at hlen
        have hmain : getTemperatureInfo ohmResult (some sensors) cpuResult =
            (sensors.map wmiSensorToTemp, none) := by
          unfold getTemperatureInfo; rw [if_neg hohm]; simp only [if_pos hlen]
        refine ⟨by rw [hmain], by rw [hmain]; simpa using hsne, fun h => absurd h0 h,
          ?_, ?_, ?_⟩
        · intro _ s hs _
          injection hs with hs
          subst hs
          rw [hmain]
        · intro _ hwd
          rw [show wmiHasData (some sensors) = !sensors.isEmpty from rfl] at hwd
          cases hsl : sensors with
          | nil => exact absurd hsl hsne
          | cons a l => rw [hsl] at hwd; simp at hwd
        · intro _ hwd
          rw [show wmiHasData (some sensors) = !sensors.isEmpty from rfl] at hwd
          cases hsl : sensors with
          | nil => exact absurd hsl hsne
          | cons a l => rw [hsl] at hwd; simp at hwd
      · have hmain : getTemperatureInfo ohmResult (some sensors) cpuResult =
            (cpuTierTemps cpuResult, none) := by
          unfold getTemperatureInfo; rw [if_neg hohm]; simp only [if_neg hlen]
        refine ⟨by rw [hmain], by rw [hmain]; exact cpuTierTemps_ne_nil cpuResult,
          fun h => absurd h0 h, ?_, ?_, ?_⟩
        · intro _ s hs hsne
          injection hs with hs
          refine absurd ?_ hsne
          rw [← hs]
          rcases Nat.eq_zero_or_pos sensors.length with h | h
          · exact List.length_eq_zero.mp h
          · exact absurd h hlen
        · intro _ _ cpuPercent hcpu hcne
          subst hcpu
          have hie : cpuPercent.isEmpty = false := by
            cases cpuPercent with
            | nil => exact absurd rfl hcne
            | cons a l => rfl
          rw [hmain]
          simp [cpuTierTemps, hie]
        · intro _ _ hcd
          rw [hmain]
          cases cpuResult with
          | none => rfl
          | some cpuPercent =>
            rw [show cpuHasData (some cpuPercent) = !cpuPercent.isEmpty from rfl] at hcd
            simp only [Bool.not_eq_false'] at hcd
            simp [cpuTierTemps, hcd]
    | none =>
      have hmain : getTemperatureInfo ohmResult none cpuResult =
          (cpuTierTemps cpuResult, none) := by
        unfold getTemperatureInfo; rw [if_neg hohm]
      refine ⟨by rw [hmain], by rw [hmain]; exact cpuTierTemps_ne_nil cpuResult,
        fun h => absurd h0 h, ?_, ?_, ?_⟩
      · intro _ s hs _
        exact absurd hs (by simp)
      · intro _ _ cpuPercent hcpu hcne
        subst hcpu
        have hie : cpuPercent.isEmpty = false := by
          cases cpuPercent with
          | nil => exact absurd rfl hcne
          | cons a l => rfl
        rw [hmain]
        simp [cpuTierTemps, hie]
      · intro _ _ hcd
        rw [hmain]
        cases cpuResult with
        | none => rfl
        | some cpuPercent =>
          rw [show cpuHasData (some cpuPercent) = !cpuPercent.isEmpty from rfl] at hcd
          simp only [Bool.not_eq_false'] at hcd
          simp [cpuTierTemps, hcd]

/-- Witness for C5: with the two earlier tiers empty and a CPU sample of
50 %, the estimate tier is used, and the error is nil. -/
theorem getTemperatureInfo_tiers_witness :
    (getTemperatureInfo none none (some [50])).1 =
      [⟨"CPU", 30 + ([(50 : ℚ)].headD 0) * 0.6, "Processor", "", 0⟩,
       ⟨"GPU", 0, "Graphics", "", 0⟩] ∧
    (getTemperatureInfo none none (some [50])).2 = none :=
  ⟨((getTemperatureInfo_tiers none none (some [50])).2.2.2.2.1 rfl rfl [(50 : ℚ)] rfl
      (by decide)),
   (getTemperatureInfo_tiers none none (some [50])).1⟩

/-- C7 counterexample: when every API answers 200 with the body
`"a.b.c.d"` — which is not a dotted-quad IP but does contain exactly
three dots — the Windows `getPublicIP` returns that body instead of the
empty string, so the claim as stated is false. -/
theorem getPublicIP_counterexample :
    getPublicIPWindows dotFetch = "a.b.c.d" ∧
    isDottedQuad "a.b.c.d" = false ∧
    ¬getPublicIPWindows dotFetch = "" := by
  refine ⟨?_, ?_, ?_⟩ <;> decide

/-- C7 (amended): the Windows `getPublicIP` returns `""` on every
execution in which every HTTP GET fails, returns a non-200 status, fails
the body read, or yields a body whose trimmed text does not contain
exactly three `'.'` characters (the source validates only the dot count,
not that the body is a dotted-quad IP); and the macOS `getPublicIP`
returns an error (which its caller only logs) and leaves `PublicIP`
untouched whenever the HTTP request, the body read or the JSON parse
fails. -/
theorem getPublicIP_empty_on_failure :
    (∀ fetch : String → Option HTTPResponse,
      (∀ api resp body, fetch api = some resp → resp.StatusCode = 200 → resp.Body = some body →
        goCountChar (goTrim body) '.' ≠ 3) →
      getPublicIPWindows fetch = "") ∧
    (∀ (unmarshalIP : String → Option String) (outcome : HTTPBodyOutcome)
       (info : Model.NetworkInfo),
      (outcome = HTTPBodyOutcome.reqFail ∨ outcome = HTTPBodyOutcome.readFail ∨
        (∃ body, outcome = HTTPBodyOutcome.ok body ∧ unmarshalIP body = none)) →
      (getPublicIPDarwin unmarshalIP outcome info).1.PublicIP = info.PublicIP ∧
      ((getPublicIPDarwin unmarshalIP outcome info).2).isSome = true) := by
  constructor
  · intro fetch hyp
    show tryPublicIPApis fetch publicIPApis = ""
    induction publicIPApis with
    | nil => rfl
    | cons api rest ih =>
      simp only [tryPublicIPApis]
      cases hf : fetch api with
      | none => exact ih
      | some resp =>
        dsimp only
        by_cases hst : resp.StatusCode = 200
        · rw [if_pos hst]
          cases hb : resp.Body with
          | none => exact ih
          | some body =>
            dsimp only
            rw [if_neg (hyp api resp body hf hst hb)]
            exact ih
        · rw [if_neg hst]
          exact ih
  · intro unmarshalIP outcome info hfail
    cases outcome with
    | reqFail => exact ⟨rfl, rfl⟩
    | readFail => exact ⟨rfl, rfl⟩
    | ok body =>
      rcases hfail with h | h | ⟨b, hb, hum⟩
      · exact absurd h (by simp)
      · exact absurd h (by simp)
      · injection hb with hb
        subst hb
        constructor
        · show (match unmarshalIP body with
            | none => (info, some "json unmarshal failed")
            | some ip => ({ info with PublicIP := ip }, none)).1.PublicIP = info.PublicIP
          rw [hum]
        · show (match unmarshalIP body with
            | none => (info, some "json unmarshal failed")
            | some ip => ({ info with PublicIP := ip }, none)).2.isSome = true
          rw [hum]
          rfl

/-- Witness for C7 (amended): every request failing yields `""` on
Windows, and a failed request on macOS keeps `PublicIP` empty while
returning an error. -/
theorem getPublicIP_empty_on_failure_witness :
    getPublicIPWindows (fun _ => none) = "" ∧
    (getPublicIPDarwin (fun _ => none) HTTPBodyOutcome.reqFail
      Model.NetworkInfo.zero).1.PublicIP = "" ∧
    ((getPublicIPDarwin (fun _ => none) HTTPBodyOutcome.reqFail
      Model.NetworkInfo.zero).2).isSome = true :=
  ⟨getPublicIP_empty_on_failure.1 (fun _ => none) (fun _ _ _ h _ _ => nomatch h),
   (getPublicIP_empty_on_failure.2 (fun _ => none) HTTPBodyOutcome.reqFail
     Model.NetworkInfo.zero (Or.inl rfl)).1,
   (getPublicIP_empty_on_failure.2 (fun _ => none) HTTPBodyOutcome.reqFail
     Model.NetworkInfo.zero (Or.inl rfl)).2⟩

/-- `formatSystemInfo` never takes the panic arm: the only indexing is
guarded by the length check. -/
theorem formatSystemInfo_total (goos : String) (info : Model.SystemInfo) :
    (formatSystemInfo goos info).isSome = true := by
  unfold formatSystemInfo
  cases hd : info.Disks with
  | nil => simp [hd]
  | cons d rest => simp [hd]

/-- The variant renderer is total for the same reason. -/
theorem formatSystemInfoB_total (goos : String) (info : Model.SystemInfo) :
    (formatSystemInfoB goos info).isSome = true := by
  unfold formatSystemInfoB
  cases hd : info.Disks with
  | nil => simp [hd]
  | cons d rest => simp [hd]

/-- C8: the plain-text renderer is total — for every report value,
including the fully zero-valued one, it returns a formatted string (the
`info.Disks[0]` access is guarded by the length check), and on the
zero-valued report the disk line reads `7. 磁盘: 未知`. -/
theorem formatSystemInfo_never_panics :
    (∀ (goos : String) (info : Model.SystemInfo), ∃ s, formatSystemInfo goos info = some s) ∧
    goContains ((formatSystemInfo "darwin" Model.SystemInfo.zero).getD "")
      "7. 磁盘: 未知" = true := by
  constructor
  · intro goos info
    cases h : formatSystemInfo goos info with
    | none =>
      have htot := formatSystemInfo_total goos info
      rw [h] at htot
      simp at htot
    | some s => exact ⟨s, rfl⟩
  · decide

/-- Exit-code and keypress behavior of the shared `--save` arm, for any
total renderer. -/
theorem mainSaveArm_spec (env : MainEnv) (render : String → Model.SystemInfo → Option String)
    (info : Model.SystemInfo) (waited : Bool)
    (hrender : ∀ g i, (render g i).isSome = true) :
    ((mainSaveArm env render info waited).1 ≠ 0 ↔
      saveRequested env ∧
        (env.writeFile (savePath env) ((render env.goos info).getD "")).isSome = true) ∧
    ((mainSaveArm env render info waited).2 = true ↔
      waited = true ∧ (mainSaveArm env render info waited).1 = 0) := by
  unfold mainSaveArm savePath saveRequested
  by_cases hs : env.args.length > 1 ∧ env.args.getD 1 "" = "--save"
  · rw [if_pos hs]
    cases hr : render env.goos info with
    | none =>
      have htot := hrender env.goos info
      rw [hr] at htot
      simp at htot
    | some output =>
      simp only [Option.getD_some]
      cases hfile : env.writeFile
          (if env.args.length > 2 then env.args.getD 2 "" else "sysinfo.txt") output with
      | some e =>
        exact ⟨iff_of_true Nat.one_ne_zero ⟨hs, rfl⟩,
          iff_of_false Bool.false_ne_true (fun hh => absurd hh.2 Nat.one_ne_zero)⟩
      | none =>
        exact ⟨iff_of_false (fun h => h rfl) (fun hh => by simpa using hh.2),
          ⟨fun h => ⟨h, rfl⟩, fun hh => hh.1⟩⟩
  · rw [if_neg hs]
    exact ⟨iff_of_false (fun h => h rfl) (fun hh => absurd hh.1 hs),
      ⟨fun h => ⟨h, rfl⟩, fun hh => hh.1⟩⟩

/-- The `--save` arm never waits when the caller does not ask it to. -/
theorem mainSaveArm_no_wait (env : MainEnv)
    (render : String → Model.SystemInfo → Option String) (info : Model.SystemInfo) :
    (mainSaveArm env render info false).2 = false := by
  unfold mainSaveArm
  by_cases hs : env.args.length > 1 ∧ env.args.getD 1 "" = "--save"
  · rw [if_pos hs]
    cases render env.goos info with
    | none => rfl
    | some output =>
      dsimp only
      cases env.writeFile
          (if env.args.length > 2 then env.args.getD 2 "" else "sysinfo.txt") output with
      | some e => rfl
      | none => rfl
  · rw [if_neg hs]

/-- C2 counterexample: the `cmd/sysinfo` entry point, run on Windows with
no `--save` flag, exits normally (code 0) without waiting for any
keypress — the claim's "on Windows the program additionally waits for a
keypress" fails for this entry point. -/
theorem mainCmd_windows_no_wait :
    (mainCmd envWinNoSave).1 = 0 ∧ (mainCmd envWinNoSave).2 = false := by
  constructor <;> decide

/-- C2 (amended): for both entry points the exit code is non-zero exactly
when the OS is neither `windows` nor `darwin` or the `--save` file write
fails — in particular it never depends on any collector outcome, since
both collectors always return a nil error; the keypress-waiting variant
waits for Enter exactly on a Windows run that exits normally, while the
`cmd/sysinfo` entry point never waits. -/
theorem mains_exit_behavior :
    ∀ env : MainEnv,
      ((mainCmd env).1 ≠ 0 ↔
        (env.goos ≠ "windows" ∧ env.goos ≠ "darwin") ∨
        (saveRequested env ∧
          (env.writeFile (savePath env)
            ((formatSystemInfo env.goos (collectedInfo env)).getD "")).isSome = true)) ∧
      ((mainB env).1 ≠ 0 ↔
        (env.goos ≠ "windows" ∧ env.goos ≠ "darwin") ∨
        (saveRequested env ∧
          (env.writeFile (savePath env)
            ((formatSystemInfoB env.goos (collectedInfo env)).getD "")).isSome = true)) ∧
      ((mainB env).2 = true ↔ env.goos = "windows" ∧ (mainB env).1 = 0) ∧
      ((mainCmd env).2 = false) := by
  intro env
  by_cases hw : env.goos = "windows"
  · have hci : collectedInfo env = (windowsGetSystemInfo env.windows).1 := by
      unfold collectedInfo
      rw [if_pos hw]
    have hcmd : mainCmd env =
        mainSaveArm env formatSystemInfo (windowsCollect env.windows) false := by
      unfold mainCmd windowsGetSystemInfo
      rw [if_pos hw]
    have hb : mainB env =
        mainSaveArm env formatSystemInfoB (windowsCollect env.windows) true := by
      unfold mainB windowsGetSystemInfo
      rw [if_pos hw]
    have hspecCmd := mainSaveArm_spec env formatSystemInfo (windowsCollect env.windows) false
      formatSystemInfo_total
    have hspecB := mainSaveArm_spec env formatSystemInfoB (windowsCollect env.windows) true
      formatSystemInfoB_total
    refine ⟨?_, ?_, ?_, ?_⟩
    · rw [hcmd, hci]
      rw [show (windowsGetSystemInfo env.windows).1 = windowsCollect env.windows from rfl]
      constructor
      · intro h
        exact Or.inr (hspecCmd.1.mp h)
      · rintro (⟨hne, _⟩ | h)
        · exact absurd hw hne
        · exact hspecCmd.1.mpr h
    · rw [hb, hci]
      rw [show (windowsGetSystemInfo env.windows).1 = windowsCollect env.windows from rfl]
      constructor
      · intro h
        exact Or.inr (hspecB.1.mp h)
      · rintro (⟨hne, _⟩ | h)
        · exact absurd hw hne
        · exact hspecB.1.mpr h
    · rw [hb]
      rw [hspecB.2]
      simp [hw]
    · rw [hcmd]
      exact mainSaveArm_no_wait env formatSystemInfo (windowsCollect env.windows)
  · by_cases hd : env.goos = "darwin"
    · have hci : collectedInfo env = (darwinGetSystemInfo env.darwin).1 := by
        unfold collectedInfo
        rw [if_neg hw]
      have hcmd : mainCmd env =
          mainSaveArm env formatSystemInfo (darwinCollect env.darwin) false := by
        unfold mainCmd darwinGetSystemInfo
        rw [if_neg hw, if_pos hd]
      have hb : mainB env =
          mainSaveArm env formatSystemInfoB (darwinCollect env.darwin) false := by
        unfold mainB darwinGetSystemInfo
        rw [if_neg hw, if_pos hd]
      have hspecCmd := mainSaveArm_spec env formatSystemInfo (darwinCollect env.darwin) false
        formatSystemInfo_total
      have hspecB := mainSaveArm_spec env formatSystemInfoB (darwinCollect env.darwin) false
        formatSystemInfoB_total
      refine ⟨?_, ?_, ?_, ?_⟩
      · rw [hcmd, hci]
        rw [show (darwinGetSystemInfo env.darwin).1 = darwinCollect env.darwin from rfl]
        constructor
        · intro h
          exact Or.inr (hspecCmd.1.mp h)
        · rintro (⟨_, hne⟩ | h)
          · exact absurd hd hne
          · exact hspecCmd.1.mpr h
      · rw [hb, hci]
        rw [show (darwinGetSystemInfo env.darwin).1 = darwinCollect env.darwin from rfl]
        constructor
        · intro h
          exact Or.inr (hspecB.1.mp h)
        · rintro (⟨_, hne⟩ | h)
          · exact absurd hd hne
          · exact hspecB.1.mpr h
      · rw [hb]
        rw [mainSaveArm_no_wait env formatSystemInfoB (darwinCollect env.darwin)]
        simp [hw]
      · rw [hcmd]
        exact mainSaveArm_no_wait env formatSystemInfo (darwinCollect env.darwin)
    · have hcmd : mainCmd env = (1, false) := by
        unfold mainCmd
        rw [if_neg hw, if_neg hd]
      have hb : mainB env = (1, false) := by
        unfold mainB
        rw [if_neg hw, if_neg hd]
      refine ⟨?_, ?_, ?_, ?_⟩
      · rw [hcmd]
        simp [hw, hd]
      · rw [hb]
        simp [hw, hd]
      · rw [hb]
        simp [hw]
      · rw [hcmd]

/-- Witness for C2 (amended): a Windows `--save` run whose file write
fails exits non-zero under the keypress-waiting main. -/
theorem mains_exit_behavior_witness : (mainB envWinSaveFail).1 ≠ 0 :=
  (mains_exit_behavior envWinSaveFail).2.1.mpr
    (Or.inr ⟨⟨by decide, by decide⟩, by decide⟩)

/-- The SSID block does not touch the signal-strength field. -/
theorem wifiSSIDBranch_signal (w : Model.WiFiInfo) (l : String) :
    (wifiSSIDBranch w l).SignalStrength = w.SignalStrength := by
  unfold wifiSSIDBranch
  split_ifs <;> rfl

/-- On a line whose SSID guard fires, the SSID block stores the extracted
value and marks the WiFi connected. -/
theorem wifiSSIDBranch_set (w : Model.WiFiInfo) (l : String) (h1 : ssidTrigger l = true)
    (h2 : (goSplit l "SSID: ").length > 1) :
    (wifiSSIDBranch w l).SSID = ssidValue l ∧ (wifiSSIDBranch w l).IsConnected = true := by
  unfold ssidTrigger at h1
  unfold wifiSSIDBranch ssidValue
  rw [if_pos h1, if_pos h2]
  exact ⟨rfl, rfl⟩

/-- On a line whose SSID guard does not fire, the SSID block is the
identity. -/
theorem wifiSSIDBranch_skip (w : Model.WiFiInfo) (l : String) (h : ssidTrigger l = false) :
    wifiSSIDBranch w l = w := by
  unfold ssidTrigger at h
  unfold wifiSSIDBranch
  rw [h]
  rfl

/-- The BSSID block does not touch the SSID, connected or signal-strength
fields. -/
theorem wifiBSSIDBranch_fields (w : Model.WiFiInfo) (l : String) :
    (wifiBSSIDBranch w l).SSID = w.SSID ∧ (wifiBSSIDBranch w l).IsConnected = w.IsConnected ∧
    (wifiBSSIDBranch w l).SignalStrength = w.SignalStrength := by
  unfold wifiBSSIDBranch
  split_ifs <;> exact ⟨rfl, rfl, rfl⟩

/-- The agrCtlRSSI block does not touch the SSID or connected fields. -/
theorem wifiRSSIBranch_fields (w : Model.WiFiInfo) (l : String) :
    (wifiRSSIBranch w l).SSID = w.SSID ∧ (wifiRSSIBranch w l).IsConnected = w.IsConnected := by
  unfold wifiRSSIBranch
  split_ifs
  · cases goAtoi (goTrim ((goSplit l "agrCtlRSSI: ").getD 1 "")) <;> exact ⟨rfl, rfl⟩
  · exact ⟨rfl, rfl⟩
  · exact ⟨rfl, rfl⟩

/-- On a line whose agrCtlRSSI guard fires and whose value parses, the
block stores that value as the signal strength. -/
theorem wifiRSSIBranch_set (w : Model.WiFiInfo) (l : String) (v : Int)
    (h1 : rssiTrigger l = true) (h2 : (goSplit l "agrCtlRSSI: ").length > 1)
    (h3 : rssiValue l = some v) : (wifiRSSIBranch w l).SignalStrength = v := by
  unfold rssiTrigger at h1
  unfold rssiValue at h3
  unfold wifiRSSIBranch
  rw [if_pos h1, if_pos h2, h3]

/-- On a line whose agrCtlRSSI guard does not fire, the block is the
identity. -/
theorem wifiRSSIBranch_skip (w : Model.WiFiInfo) (l : String) (h : rssiTrigger l = false) :
    wifiRSSIBranch w l = w := by
  unfold rssiTrigger at h
  unfold wifiRSSIBranch
  rw [h]
  rfl

/-- The channel block does not touch the SSID, connected or
signal-strength fields. -/
theorem wifiChannelBranch_fields (w : Model.WiFiInfo) (l : String) :
    (wifiChannelBranch w l).SSID = w.SSID ∧ (wifiChannelBranch w l).IsConnected = w.IsConnected ∧
    (wifiChannelBranch w l).SignalStrength = w.SignalStrength := by
  unfold wifiChannelBranch
  split_ifs
  · cases goAtoi (goTrim ((goSplit l "channel: ").getD 1 "")) <;> exact ⟨rfl, rfl, rfl⟩
  · exact ⟨rfl, rfl, rfl⟩
  · exact ⟨rfl, rfl, rfl⟩

/-- The frequency block does not touch the SSID, connected or
signal-strength fields. -/
theorem wifiFreqBranch_fields (w : Model.WiFiInfo) (l : String) :
    (wifiFreqBranch w l).SSID = w.SSID ∧ (wifiFreqBranch w l).IsConnected = w.IsConnected ∧
    (wifiFreqBranch w l).SignalStrength = w.SignalStrength := by
  unfold wifiFreqBranch
  split_ifs
  · cases goParseFloat (goTrimSuf (goTrim ((goSplit l "frequency: ").getD 1 "")) " GHz") <;>
      exact ⟨rfl, rfl, rfl⟩
  · exact ⟨rfl, rfl, rfl⟩
  · exact ⟨rfl, rfl, rfl⟩
  · exact ⟨rfl, rfl, rfl⟩

/-- The lastTxRate block does not touch the SSID, connected or
signal-strength fields. -/
theorem wifiTxBranch_fields (w : Model.WiFiInfo) (l : String) :
    (wifiTxBranch w l).SSID = w.SSID ∧ (wifiTxBranch w l).IsConnected = w.IsConnected ∧
    (wifiTxBranch w l).SignalStrength = w.SignalStrength := by
  unfold wifiTxBranch
  split_ifs
  · cases goAtoi (goTrim ((goSplit l "lastTxRate: ").getD 1 "")) <;> exact ⟨rfl, rfl, rfl⟩
  · exact ⟨rfl, rfl, rfl⟩
  · exact ⟨rfl, rfl, rfl⟩

/-- The whole line step's SSID and connected fields are exactly those of
its SSID block. -/
theorem wifiLineStep_ssid (w : Model.WiFiInfo) (l : String) :
    (wifiLineStep w l).SSID = (wifiSSIDBranch w l).SSID ∧
    (wifiLineStep w l).IsConnected = (wifiSSIDBranch w l).IsConnected := by
  unfold wifiLineStep
  constructor
  · rw [(wifiTxBranch_fields _ _).1, (wifiFreqBranch_fields _ _).1,
      (wifiChannelBranch_fields _ _).1, (wifiRSSIBranch_fields _ _).1,
      (wifiBSSIDBranch_fields _ _).1]
  · rw [(wifiTxBranch_fields _ _).2.1, (wifiFreqBranch_fields _ _).2.1,
      (wifiChannelBranch_fields _ _).2.1, (wifiRSSIBranch_fields _ _).2,
      (wifiBSSIDBranch_fields _ _).2.1]

/-- The whole line step's signal-strength field is exactly that of its
agrCtlRSSI block, applied after the SSID and BSSID blocks. -/
theorem wifiLineStep_signal (w : Model.WiFiInfo) (l : String) :
    (wifiLineStep w l).SignalStrength =
      (wifiRSSIBranch (wifiBSSIDBranch (wifiSSIDBranch w l) l) l).SignalStrength := by
  unfold wifiLineStep
  rw [(wifiTxBranch_fields _ _).2.2, (wifiFreqBranch_fields _ _).2.2,
    (wifiChannelBranch_fields _ _).2.2]

/-- C4 (amended): for any `airport -I` output with at least one line
firing the SSID guard — every such line extracting `TestNet` — and at
least one line firing the agrCtlRSSI guard — every such line parsing to
−55 — the parser stores SSID `"TestNet"`, signal strength −55 and marks
the WiFi connected (and returns a nil error).  (The source keeps the
extraction of the last firing line, so the claim's original "any output
containing such lines" form fails when a later line extracts a different
value; see the counterexample.) -/
theorem getWiFiInfo_fixture :
    ∀ (output : String) (info : Model.NetworkInfo),
      (∃ l ∈ goLines output, ssidTrigger l = true) →
      (∀ l ∈ goLines output, ssidTrigger l = true →
        (goSplit l "SSID: ").length > 1 ∧ ssidValue l = "TestNet") →
      (∃ l ∈ goLines output, rssiTrigger l = true) →
      (∀ l ∈ goLines output, rssiTrigger l = true →
        (goSplit l "agrCtlRSSI: ").length > 1 ∧ rssiValue l = some (-55)) →
      (getWiFiInfo (some output) info).1.WiFi.SSID = "TestNet" ∧
      (getWiFiInfo (some output) info).1.WiFi.SignalStrength = -55 ∧
      (getWiFiInfo (some output) info).1.WiFi.IsConnected = true ∧
      (getWiFiInfo (some output) info).2 = none := by
  intro output info hssidEx hssidAll hrssiEx hrssiAll
  have hWiFi : (getWiFiInfo (some output) info).1.WiFi = parseAirportOutput output := rfl
  have hP1 : (parseAirportOutput output).SSID = "TestNet" ∧
      (parseAirportOutput output).IsConnected = true := by
    refine foldlEstablish wifiLineStep
      (fun w => w.SSID = "TestNet" ∧ w.IsConnected = true) (goLines output) ?_ ?_ _
    · intro s a ha hP
      rcases ht : ssidTrigger a with hf | htr
      · rw [(wifiLineStep_ssid s a).1, (wifiLineStep_ssid s a).2,
          wifiSSIDBranch_skip s a ht]
        exact hP
      · obtain ⟨hlen, hval⟩ := hssidAll a ha ht
        rw [(wifiLineStep_ssid s a).1, (wifiLineStep_ssid s a).2,
          (wifiSSIDBranch_set s a ht hlen).1, (wifiSSIDBranch_set s a ht hlen).2]
        exact ⟨hval, rfl⟩
    · obtain ⟨a, ha, ht⟩ := hssidEx
      refine ⟨a, ha, fun s => ?_⟩
      obtain ⟨hlen, hval⟩ := hssidAll a ha ht
      rw [(wifiLineStep_ssid s a).1, (wifiLineStep_ssid s a).2,
        (wifiSSIDBranch_set s a ht hlen).1, (wifiSSIDBranch_set s a ht hlen).2]
      exact ⟨hval, rfl⟩
  have hP2 : (parseAirportOutput output).SignalStrength = -55 := by
    refine foldlEstablish wifiLineStep (fun w => w.SignalStrength = -55)
      (goLines output) ?_ ?_ _
    · intro s a ha hP
      rcases ht : rssiTrigger a with hf | htr
      · rw [wifiLineStep_signal s a, wifiRSSIBranch_skip _ a ht,
          (wifiBSSIDBranch_fields _ _).2.2, wifiSSIDBranch_signal]
        exact hP
      · obtain ⟨hlen, hval⟩ := hrssiAll a ha ht
        rw [wifiLineStep_signal s a, wifiRSSIBranch_set _ a (-55) ht hlen hval]
    · obtain ⟨a, ha, ht⟩ := hrssiEx
      refine ⟨a, ha, fun s => ?_⟩
      obtain ⟨hlen, hval⟩ := hrssiAll a ha ht
      rw [wifiLineStep_signal s a, wifiRSSIBranch_set _ a (-55) ht hlen hval]
  exact ⟨by rw [hWiFi]; exact hP1.1, by rw [hWiFi]; exact hP2,
    by rw [hWiFi]; exact hP1.2, rfl⟩

/-- C4 counterexample: an output containing a line with
`" SSID: TestNet"` and a line with `"agrCtlRSSI: -55"` on which the
parser nevertheless does not report SSID `"TestNet"`, because a later
SSID line overrides it — the claim's universal form is false. -/
theorem getWiFiInfo_claim_counterexample :
    (∃ l ∈ goLines airportConflicting, goContains l " SSID: TestNet" = true) ∧
    (∃ l ∈ goLines airportConflicting, goContains l "agrCtlRSSI: -55" = true) ∧
    ¬((getWiFiInfo (some airportConflicting) Model.NetworkInfo.zero).1.WiFi.SSID =
      "TestNet") := by
  refine ⟨?_, ?_, ?_⟩ <;> decide

/-- Witness for C4 (amended) at a concrete two-line fixture. -/
theorem getWiFiInfo_fixture_witness :
    (getWiFiInfo (some airportFixture) Model.NetworkInfo.zero).1.WiFi.SSID = "TestNet" ∧
    (getWiFiInfo (some airportFixture) Model.NetworkInfo.zero).1.WiFi.SignalStrength = -55 ∧
    (getWiFiInfo (some airportFixture) Model.NetworkInfo.zero).1.WiFi.IsConnected = true :=
  have h := getWiFiInfo_fixture airportFixture Model.NetworkInfo.zero
    (by decide) (by decide) (by decide) (by decide)
  ⟨h.1, h.2.1, h.2.2.1⟩

end SysSpector
